import Mathlib

/-!
# Loan EMI calculator (script.js)

A shallow embedding of the computational part of script.js: the input
validation, the EMI formula and the totals of calculateEMI, and the loop of
generateAmortizationSchedule.

Numbers.  A JavaScript Number is modelled by JSNum: NaN, the two infinities,
or a finite value carried as an exact rational.  The operators of JSNum are
exact on finite values (no rounding, no overflow), and the negative zero is
identified with zero.  The special values follow IEEE 754 as JavaScript
applies it.  Every statement about calculateEMI and
generateAmortizationSchedule below is therefore a statement in exact
arithmetic.

Doubles.  The program itself computes in IEEE 754 binary64.  The section
on binary64 defines the rounding to nearest (ties to even) and states the
same loop body and the same EMI formula with every arithmetic result rounded;
it is used to show where the program in doubles departs from exact
arithmetic.

Page.  The DOM is modelled by the record Page: the text of the four result
elements, the rows written to the amortization table body, the data handed to
the chart and the alerts shown, together with a record of the figures
calculateEMI computed and handed to displayResults.  Number formatting
(toLocaleString, toFixed) is not modelled: the page records the unformatted
values.
-/

namespace LoanCalculator

/-- A JavaScript Number: NaN, plus or minus Infinity, or a finite value. -/
inductive JSNum where
  | nan : JSNum
  | posInf : JSNum
  | negInf : JSNum
  | fin (q : ℚ) : JSNum
deriving DecidableEq

/-- The result of parseInt: NaN, an integer, or (for a digit string too long
for a double) an infinity. -/
inductive JSInt where
  | nan : JSInt
  | posInf : JSInt
  | negInf : JSInt
  | int (z : ℤ) : JSInt
deriving DecidableEq

namespace JSNum

/-- The global function isNaN on a Number. -/
def isNaN : JSNum → Bool
  | nan => true
  | _ => false

/-- Unary minus. -/
def neg : JSNum → JSNum
  | nan => nan
  | posInf => negInf
  | negInf => posInf
  | fin q => fin (-q)

/-- The operator + on Numbers. -/
def add : JSNum → JSNum → JSNum
  | nan, _ => nan
  | _, nan => nan
  | posInf, negInf => nan
  | negInf, posInf => nan
  | posInf, _ => posInf
  | negInf, _ => negInf
  | fin _, posInf => posInf
  | fin _, negInf => negInf
  | fin a, fin b => fin (a + b)

/-- The operator - on Numbers. -/
def sub (a b : JSNum) : JSNum := add a (neg b)

/-- The product of an infinity (positive or negative) and a finite value. -/
def infTimes (positive : Bool) (q : ℚ) : JSNum :=
  if q = 0 then nan
  else if decide (0 < q) = positive then posInf else negInf

/-- The operator * on Numbers. -/
def mul : JSNum → JSNum → JSNum
  | nan, _ => nan
  | _, nan => nan
  | posInf, posInf => posInf
  | posInf, negInf => negInf
  | negInf, posInf => negInf
  | negInf, negInf => posInf
  | posInf, fin b => infTimes true b
  | negInf, fin b => infTimes false b
  | fin a, posInf => infTimes true a
  | fin a, negInf => infTimes false a
  | fin a, fin b => fin (a * b)

/-- The operator / on Numbers. -/
def div : JSNum → JSNum → JSNum
  | nan, _ => nan
  | _, nan => nan
  | posInf, posInf => nan
  | posInf, negInf => nan
  | negInf, posInf => nan
  | negInf, negInf => nan
  | posInf, fin b => if 0 ≤ b then posInf else negInf
  | negInf, fin b => if 0 ≤ b then negInf else posInf
  | fin _, posInf => fin 0
  | fin _, negInf => fin 0
  | fin a, fin b =>
    if b = 0 then
      (if a = 0 then nan else if 0 < a then posInf else negInf)
    else fin (a / b)

/-- The operator <= on Numbers (false as soon as one side is NaN). -/
def le : JSNum → JSNum → Bool
  | nan, _ => false
  | _, nan => false
  | negInf, _ => true
  | _, posInf => true
  | posInf, _ => false
  | fin _, negInf => false
  | fin a, fin b => decide (a ≤ b)

/-- The operator < on Numbers (false as soon as one side is NaN). -/
def lt : JSNum → JSNum → Bool
  | nan, _ => false
  | _, nan => false
  | posInf, _ => false
  | _, negInf => false
  | negInf, _ => true
  | fin _, posInf => true
  | fin a, fin b => decide (a < b)

/-- The comparison x === 0. -/
def isZero : JSNum → Bool
  | fin q => decide (q = 0)
  | _ => false

end JSNum

namespace JSInt

/-- An integer Number seen as a Number. -/
def toNum : JSInt → JSNum
  | nan => JSNum.nan
  | posInf => JSNum.posInf
  | negInf => JSNum.negInf
  | int z => JSNum.fin (z : ℚ)

/-- The product of an integer Number and an integer literal. -/
def mulLit : JSInt → ℤ → JSInt
  | nan, _ => nan
  | posInf, k => if k = 0 then nan else if 0 < k then posInf else negInf
  | negInf, k => if k = 0 then nan else if 0 < k then negInf else posInf
  | int z, k => int (z * k)

end JSInt

namespace Math

/-- The power with an infinite exponent: decided by how the absolute value of
the base compares with 1 (larger says whether it exceeds 1, one whether it
equals 1), upward for plus Infinity and downward for minus Infinity. -/
def powInf (larger one upward : Bool) : JSNum :=
  if one then JSNum.nan
  else if larger = upward then JSNum.posInf else JSNum.fin 0

/-- Math.pow with an integer, infinite or NaN exponent. -/
def pow : JSNum → JSInt → JSNum
  | _, JSInt.nan => JSNum.nan
  | JSNum.nan, JSInt.posInf => JSNum.nan
  | JSNum.nan, JSInt.negInf => JSNum.nan
  | JSNum.fin q, JSInt.posInf => powInf (decide (1 < |q|)) (decide (|q| = 1)) true
  | JSNum.fin q, JSInt.negInf => powInf (decide (1 < |q|)) (decide (|q| = 1)) false
  | _, JSInt.posInf => JSNum.posInf
  | _, JSInt.negInf => JSNum.fin 0
  | base, JSInt.int n =>
    if n = 0 then JSNum.fin 1
    else match base with
      | JSNum.nan => JSNum.nan
      | JSNum.fin q =>
        if 0 < n then JSNum.fin (q ^ n.toNat)
        else if q = 0 then JSNum.posInf
        else JSNum.fin ((q ^ (-n).toNat)⁻¹)
      | JSNum.posInf => if 0 < n then JSNum.posInf else JSNum.fin 0
      | JSNum.negInf =>
        if 0 < n then (if n % 2 = 0 then JSNum.posInf else JSNum.negInf)
        else JSNum.fin 0

/-- Math.min of two Numbers. -/
def min (a b : JSNum) : JSNum :=
  if a.isNaN || b.isNaN then JSNum.nan
  else if JSNum.le a b then a else b

/-- Math.max of two Numbers. -/
def max (a b : JSNum) : JSNum :=
  if a.isNaN || b.isNaN then JSNum.nan
  else if JSNum.le a b then b else a

end Math

/-- One table row written by generateAmortizationSchedule (unformatted). -/
structure Row where
  month : ℕ
  emi : JSNum
  principalComponent : JSNum
  interestComponent : JSNum
  finalBalance : JSNum
deriving DecidableEq

/-- The four values handed to displayResults (unformatted). -/
structure Results where
  emi : JSNum
  totalInterest : JSNum
  totalPayment : JSNum
  months : JSInt
deriving DecidableEq

/-- The part of the page the script writes to.  The first four fields are the
texts of the elements emiValue, totalInterest, totalPayment and loanTenure
(none while the script has not written them); results records the figures of
the latest call of displayResults. -/
structure Page where
  emiValue : Option JSNum
  totalInterest : Option JSNum
  totalPayment : Option JSNum
  loanTenure : Option JSInt
  results : Option Results
  amortizationBody : List Row
  paymentChart : Option (JSNum × JSNum)
  alerts : List String
deriving DecidableEq

/-- showError: one alert with the message. -/
def showError (message : String) (page : Page) : Page :=
  { page with alerts := page.alerts ++ ["Error: " ++ message] }

/-- displayResults, in a classic (non-strict) script.  The elements emiValue
and loanTenure get their text.  The parameters totalInterest and totalPayment
hide the element constants of the same names, so the two other assignments to
textContent land on a Number and are lost: the elements totalInterest and
totalPayment keep their text.  The four figures received are recorded in
results. -/
def displayResults (emi totalInterest totalPayment : JSNum) (months : JSInt)
    (page : Page) : Page :=
  { page with
    emiValue := some emi
    loanTenure := some months
    results := some ⟨emi, totalInterest, totalPayment, months⟩ }

/-- createPaymentChart: the chart is rebuilt from the two figures. -/
def createPaymentChart (principal totalInterest : JSNum) (page : Page) : Page :=
  { page with paymentChart := some (principal, totalInterest) }

namespace generateAmortizationSchedule

/-- The balance after one pass through the loop body. -/
def nextBalance (monthlyRate emi balance : JSNum) : JSNum :=
  let interestComponent := JSNum.mul balance monthlyRate
  let principalComponent := JSNum.sub emi interestComponent
  JSNum.sub balance principalComponent

/-- The row written by one pass through the loop body. -/
def row (monthlyRate emi : JSNum) (month : ℕ) (balance : JSNum) : Row :=
  let interestComponent := JSNum.mul balance monthlyRate
  let principalComponent := JSNum.sub emi interestComponent
  let balance := JSNum.sub balance principalComponent
  let finalBalance := Math.max (JSNum.fin 0) balance
  ⟨month, emi, principalComponent, interestComponent, finalBalance⟩

/-- The for loop, from the given month and balance on.  The first argument
bounds the number of passes; the loop condition never lets more than twelve
happen. -/
def loop (monthlyRate months emi : JSNum) : ℕ → ℕ → JSNum → List Row
  | 0, _, _ => []
  | fuel + 1, month, balance =>
    if JSNum.le (JSNum.fin (month : ℚ)) (Math.min (JSNum.fin 12) months) then
      row monthlyRate emi month balance ::
        loop monthlyRate months emi fuel (month + 1)
          (nextBalance monthlyRate emi balance)
    else []

end generateAmortizationSchedule

/-- The rows generateAmortizationSchedule builds. -/
def scheduleRows (principal monthlyRate months emi : JSNum) : List Row :=
  generateAmortizationSchedule.loop monthlyRate months emi 12 1 principal

/-- generateAmortizationSchedule: the table body is replaced by the rows. -/
def generateAmortizationSchedule (principal monthlyRate months emi : JSNum)
    (page : Page) : Page :=
  { page with amortizationBody := scheduleRows principal monthlyRate months emi }

namespace calculateEMI

/-- The guard of calculateEMI: true when the input is rejected. -/
def invalid (principal annualInterestRate : JSNum) (years : JSInt) : Bool :=
  principal.isNaN || annualInterestRate.isNaN || years.toNum.isNaN ||
    JSNum.le principal (JSNum.fin 0) || JSNum.lt annualInterestRate (JSNum.fin 0) ||
    JSNum.le years.toNum (JSNum.fin 0)

/-- The monthly rate as a decimal fraction. -/
def monthlyInterestRate (annualInterestRate : JSNum) : JSNum :=
  JSNum.div (JSNum.div annualInterestRate (JSNum.fin 12)) (JSNum.fin 100)

/-- The number of monthly periods. -/
def months (years : JSInt) : JSInt := years.mulLit 12

/-- The numerator of the EMI formula. -/
def numerator (principal monthlyInterestRate : JSNum) (months : JSInt) : JSNum :=
  JSNum.mul (JSNum.mul principal monthlyInterestRate)
    (Math.pow (JSNum.add (JSNum.fin 1) monthlyInterestRate) months)

/-- The denominator of the EMI formula. -/
def denominator (monthlyInterestRate : JSNum) (months : JSInt) : JSNum :=
  JSNum.sub (Math.pow (JSNum.add (JSNum.fin 1) monthlyInterestRate) months) (JSNum.fin 1)

/-- The instalment: the zero interest case, else the standard formula. -/
def emi (principal monthlyInterestRate : JSNum) (months : JSInt) : JSNum :=
  if monthlyInterestRate.isZero then
    JSNum.div principal months.toNum
  else
    JSNum.div (numerator principal monthlyInterestRate months)
      (denominator monthlyInterestRate months)

/-- The total paid over the term. -/
def totalPaymentAmount (emi : JSNum) (months : JSInt) : JSNum :=
  JSNum.mul emi months.toNum

/-- The interest paid over the term. -/
def totalInterestAmount (totalPaymentAmount principal : JSNum) : JSNum :=
  JSNum.sub totalPaymentAmount principal

end calculateEMI

/-- The message calculateEMI passes to showError. -/
def invalidMessage : String := "Please enter valid positive numbers for all fields"

/-- calculateEMI, on the three parsed field values. -/
def calculateEMI (principal annualInterestRate : JSNum) (years : JSInt)
    (page : Page) : Page :=
  if calculateEMI.invalid principal annualInterestRate years then
    showError invalidMessage page
  else
    let monthlyInterestRate := calculateEMI.monthlyInterestRate annualInterestRate
    let months := calculateEMI.months years
    let emi := calculateEMI.emi principal monthlyInterestRate months
    let totalPaymentAmount := calculateEMI.totalPaymentAmount emi months
    let totalInterestAmount := calculateEMI.totalInterestAmount totalPaymentAmount principal
    let page := displayResults emi totalInterestAmount totalPaymentAmount months page
    let page := generateAmortizationSchedule principal monthlyInterestRate months.toNum emi page
    createPaymentChart principal totalInterestAmount page

/-- The values resetCalculator puts in the three fields, as parsed. -/
def resetPrincipal : JSNum := JSNum.fin 500000

/-- The default annual rate, 8.5. -/
def resetInterestRate : JSNum := JSNum.fin (17 / 2)

/-- The default tenure, 20 years. -/
def resetTenure : JSInt := JSInt.int 20

/-- resetCalculator: the defaults are entered and calculateEMI runs. -/
def resetCalculator (page : Page) : Page :=
  calculateEMI resetPrincipal resetInterestRate resetTenure page

/-- A page on which nothing has been written yet. -/
def emptyPage : Page := ⟨none, none, none, none, none, [], none, []⟩

/-- The payment formula in the words of the specification, over exact
rationals: principal / months at rate zero, else
principal * monthlyRate * (1+monthlyRate)^months / ((1+monthlyRate)^months - 1). -/
def specPayment (principal monthlyRate : ℚ) (months : ℕ) : ℚ :=
  if monthlyRate = 0 then principal / months
  else principal * monthlyRate * (1 + monthlyRate) ^ months /
    ((1 + monthlyRate) ^ months - 1)

/-- The balance of the loop after k passes on finite values, over exact
rationals: each pass replaces balance by balance - (emi - balance * monthlyRate). -/
def balanceAfter (monthlyRate emi principal : ℚ) (k : ℕ) : ℚ :=
  (fun balance : ℚ => balance - (emi - balance * monthlyRate))^[k] principal

/-! ## Binary64: the same code with every arithmetic result rounded -/

namespace binary64

/-- The nearest integer to a rational, a tie going to the even neighbour. -/
def roundHalfEven (q : ℚ) : ℤ :=
  if q - ⌊q⌋ < 1 / 2 then ⌊q⌋
  else if 1 / 2 < q - ⌊q⌋ then ⌊q⌋ + 1
  else if ⌊q⌋ % 2 = 0 then ⌊q⌋ else ⌊q⌋ + 1

/-- The binary exponent of the last place of a double near a non-zero q: 52
below the exponent of q, and never below -1074 (the subnormal range). -/
def ulpExponent (q : ℚ) : ℤ := max (Int.log 2 |q| - 52) (-1074)

/-- The IEEE 754 binary64 value of an exact result: rounded to the nearest
multiple of the last place, ties to even, and an infinity once the rounded
value reaches 2^1024. -/
def round (q : ℚ) : JSNum :=
  if q = 0 then JSNum.fin 0
  else if (2 : ℚ) ^ 1024 ≤
      |(roundHalfEven (q / (2 : ℚ) ^ ulpExponent q) : ℚ) * (2 : ℚ) ^ ulpExponent q| then
    (if 0 < q then JSNum.posInf else JSNum.negInf)
  else JSNum.fin ((roundHalfEven (q / (2 : ℚ) ^ ulpExponent q) : ℚ) * (2 : ℚ) ^ ulpExponent q)

end binary64

/-- The double a Number operator returns for the exact result of JSNum: finite
results are rounded, NaN and the infinities stay. -/
def JSNum.toBinary64 : JSNum → JSNum
  | JSNum.fin q => binary64.round q
  | x => x

/-- The row of one pass through the loop body, with every arithmetic result
passed through fl.  With fl the identity this is row; with fl the rounding to
binary64 it is the row the program computes in doubles. -/
def generateAmortizationSchedule.rowRounded (fl : JSNum → JSNum) (monthlyRate emi : JSNum)
    (month : ℕ) (balance : JSNum) : Row :=
  let interestComponent := fl (JSNum.mul balance monthlyRate)
  let principalComponent := fl (JSNum.sub emi interestComponent)
  let balance := fl (JSNum.sub balance principalComponent)
  let finalBalance := Math.max (JSNum.fin 0) balance
  ⟨month, emi, principalComponent, interestComponent, finalBalance⟩

/-- The balance after one pass through the loop body, with every arithmetic
result passed through fl. -/
def generateAmortizationSchedule.nextBalanceRounded (fl : JSNum → JSNum)
    (monthlyRate emi balance : JSNum) : JSNum :=
  let interestComponent := fl (JSNum.mul balance monthlyRate)
  let principalComponent := fl (JSNum.sub emi interestComponent)
  fl (JSNum.sub balance principalComponent)

/-- The for loop with every arithmetic result passed through fl (the loop
counter and Math.min are exact in doubles as well). -/
def generateAmortizationSchedule.loopRounded (fl : JSNum → JSNum)
    (monthlyRate months emi : JSNum) : ℕ → ℕ → JSNum → List Row
  | 0, _, _ => []
  | fuel + 1, month, balance =>
    if JSNum.le (JSNum.fin (month : ℚ)) (Math.min (JSNum.fin 12) months) then
      generateAmortizationSchedule.rowRounded fl monthlyRate emi month balance ::
        generateAmortizationSchedule.loopRounded fl monthlyRate months emi fuel (month + 1)
          (generateAmortizationSchedule.nextBalanceRounded fl monthlyRate emi balance)
    else []

/-- The rows generateAmortizationSchedule builds, with every arithmetic result
passed through fl. -/
def scheduleRowsRounded (fl : JSNum → JSNum) (principal monthlyRate months emi : JSNum) :
    List Row :=
  generateAmortizationSchedule.loopRounded fl monthlyRate months emi 12 1 principal

/-- The monthly rate, with each of the two quotients passed through fl. -/
def calculateEMI.monthlyInterestRateRounded (fl : JSNum → JSNum)
    (annualInterestRate : JSNum) : JSNum :=
  fl (JSNum.div (fl (JSNum.div annualInterestRate (JSNum.fin 12))) (JSNum.fin 100))

/-- The numerator of the EMI formula, with every arithmetic result passed
through fl.  Math.pow is taken as the rounded exact power; the language
leaves its last digits to the implementation. -/
def calculateEMI.numeratorRounded (fl : JSNum → JSNum) (principal monthlyInterestRate : JSNum)
    (months : JSInt) : JSNum :=
  fl (JSNum.mul (fl (JSNum.mul principal monthlyInterestRate))
    (fl (Math.pow (fl (JSNum.add (JSNum.fin 1) monthlyInterestRate)) months)))

/-- The denominator of the EMI formula, with every arithmetic result passed
through fl. -/
def calculateEMI.denominatorRounded (fl : JSNum → JSNum) (monthlyInterestRate : JSNum)
    (months : JSInt) : JSNum :=
  fl (JSNum.sub (fl (Math.pow (fl (JSNum.add (JSNum.fin 1) monthlyInterestRate)) months))
    (JSNum.fin 1))

/-- The instalment, with every arithmetic result passed through fl. -/
def calculateEMI.emiRounded (fl : JSNum → JSNum) (principal monthlyInterestRate : JSNum)
    (months : JSInt) : JSNum :=
  if monthlyInterestRate.isZero then
    fl (JSNum.div principal months.toNum)
  else
    fl (JSNum.div (calculateEMI.numeratorRounded fl principal monthlyInterestRate months)
      (calculateEMI.denominatorRounded fl monthlyInterestRate months))

/-! ## The finite fragment of the arithmetic -/

@[simp] theorem JSNum.add_fin (a b : ℚ) : JSNum.add (JSNum.fin a) (JSNum.fin b) = JSNum.fin (a + b) := rfl

@[simp] theorem JSNum.sub_fin (a b : ℚ) : JSNum.sub (JSNum.fin a) (JSNum.fin b) = JSNum.fin (a - b) := by
  simp [JSNum.sub, JSNum.neg, sub_eq_add_neg]

@[simp] theorem JSNum.mul_fin (a b : ℚ) : JSNum.mul (JSNum.fin a) (JSNum.fin b) = JSNum.fin (a * b) := rfl

theorem JSNum.div_fin (a b : ℚ) (hb : b ≠ 0) :
    JSNum.div (JSNum.fin a) (JSNum.fin b) = JSNum.fin (a / b) := by
  simp [JSNum.div, hb]

@[simp] theorem JSNum.le_fin (a b : ℚ) : JSNum.le (JSNum.fin a) (JSNum.fin b) = decide (a ≤ b) := rfl

@[simp] theorem JSNum.lt_fin (a b : ℚ) : JSNum.lt (JSNum.fin a) (JSNum.fin b) = decide (a < b) := rfl

@[simp] theorem JSNum.isNaN_fin (a : ℚ) : (JSNum.fin a).isNaN = false := rfl

@[simp] theorem JSNum.isZero_fin (a : ℚ) : (JSNum.fin a).isZero = decide (a = 0) := rfl

@[simp] theorem JSInt.toNum_int (z : ℤ) : (JSInt.int z).toNum = JSNum.fin (z : ℚ) := rfl

theorem Math.pow_fin (x : ℚ) (n : ℤ) (hn : 0 < n) :
    Math.pow (JSNum.fin x) (JSInt.int n) = JSNum.fin (x ^ n.toNat) := by
  simp [Math.pow, hn, hn.ne.symm]

theorem Math.max_fin (a b : ℚ) :
    Math.max (JSNum.fin a) (JSNum.fin b) = JSNum.fin (Max.max a b) := by
  by_cases h : a ≤ b
  · simp [Math.max, h]
  · simp [Math.max, h, max_eq_left (le_of_not_le h)]

theorem Math.min_fin (a b : ℚ) :
    Math.min (JSNum.fin a) (JSNum.fin b) = JSNum.fin (Min.min a b) := by
  by_cases h : a ≤ b
  · simp [Math.min, h]
  · simp [Math.min, h, min_eq_right (le_of_not_le h)]

/-! ## The instalment on finite, accepted input -/

theorem calculateEMI.invalid_fin (principal annualInterestRate : ℚ) (years : ℤ) :
    calculateEMI.invalid (JSNum.fin principal) (JSNum.fin annualInterestRate) (JSInt.int years)
      = (decide (principal ≤ 0) || decide (annualInterestRate < 0) || decide (years ≤ 0)) := by
  simp [calculateEMI.invalid]

theorem calculateEMI.monthlyInterestRate_fin (annualInterestRate : ℚ) :
    calculateEMI.monthlyInterestRate (JSNum.fin annualInterestRate)
      = JSNum.fin (annualInterestRate / 12 / 100) := by
  simp [calculateEMI.monthlyInterestRate, JSNum.div_fin]

theorem one_lt_growth (r : ℚ) (n : ℕ) (hr : 0 < r) (hn : n ≠ 0) : 1 < (1 + r) ^ n :=
  one_lt_pow₀ (by linarith) hn

theorem calculateEMI.denominator_fin (r : ℚ) (n : ℤ) (hn : 0 < n) :
    calculateEMI.denominator (JSNum.fin r) (JSInt.int n)
      = JSNum.fin ((1 + r) ^ n.toNat - 1) := by
  simp [calculateEMI.denominator, Math.pow_fin _ _ hn]

theorem calculateEMI.numerator_fin (p r : ℚ) (n : ℤ) (hn : 0 < n) :
    calculateEMI.numerator (JSNum.fin p) (JSNum.fin r) (JSInt.int n)
      = JSNum.fin (p * r * (1 + r) ^ n.toNat) := by
  simp [calculateEMI.numerator, Math.pow_fin _ _ hn]

theorem toNat_ne_zero_of_pos (n : ℤ) (hn : 0 < n) : n.toNat ≠ 0 := by
  omega

theorem calculateEMI.emi_fin (p r : ℚ) (n : ℤ) (hr : 0 ≤ r) (hn : 0 < n) :
    calculateEMI.emi (JSNum.fin p) (JSNum.fin r) (JSInt.int n)
      = JSNum.fin (if r = 0 then p / n
          else p * r * (1 + r) ^ n.toNat / ((1 + r) ^ n.toNat - 1)) := by
  by_cases h : r = 0
  · have hn0 : (n : ℚ) ≠ 0 := by exact_mod_cast hn.ne.symm
    simp [calculateEMI.emi, h, JSNum.div_fin _ _ hn0]
  · have hpos : 0 < r := lt_of_le_of_ne hr (Ne.symm h)
    have hd : (1 + r) ^ n.toNat - 1 ≠ 0 := by
      have := one_lt_growth r n.toNat hpos (toNat_ne_zero_of_pos n hn)
      linarith
    simp [calculateEMI.emi, h, calculateEMI.denominator_fin _ _ hn,
      calculateEMI.numerator_fin _ _ _ hn, JSNum.div_fin _ _ hd]

theorem cast_toNat_of_pos (n : ℤ) (hn : 0 < n) : ((n.toNat : ℕ) : ℚ) = (n : ℚ) := by
  have h : ((n.toNat : ℕ) : ℤ) = n := Int.toNat_of_nonneg hn.le
  exact_mod_cast congrArg (fun z : ℤ => (z : ℚ)) h

theorem calculateEMI.emi_eq_specPayment (p r : ℚ) (n : ℤ) (hr : 0 ≤ r) (hn : 0 < n) :
    calculateEMI.emi (JSNum.fin p) (JSNum.fin r) (JSInt.int n)
      = JSNum.fin (specPayment p r n.toNat) := by
  rw [calculateEMI.emi_fin p r n hr hn, specPayment, cast_toNat_of_pos n hn]

theorem calculateEMI.not_invalid (p a : ℚ) (y : ℤ) (hp : 0 < p) (ha : 0 ≤ a) (hy : 0 < y) :
    calculateEMI.invalid (JSNum.fin p) (JSNum.fin a) (JSInt.int y) = false := by
  simp [calculateEMI.invalid_fin, hp, ha, hy]

/-- What calculateEMI writes on finite, accepted input. -/
theorem calculateEMI.accepted (p a : ℚ) (y : ℤ) (page : Page)
    (hp : 0 < p) (ha : 0 ≤ a) (hy : 0 < y) :
    calculateEMI (JSNum.fin p) (JSNum.fin a) (JSInt.int y) page =
      { emiValue := some (JSNum.fin (specPayment p (a / 12 / 100) (y * 12).toNat))
        totalInterest := page.totalInterest
        totalPayment := page.totalPayment
        loanTenure := some (JSInt.int (y * 12))
        results := some ⟨JSNum.fin (specPayment p (a / 12 / 100) (y * 12).toNat),
          JSNum.fin (specPayment p (a / 12 / 100) (y * 12).toNat * ((y * 12 : ℤ) : ℚ) - p),
          JSNum.fin (specPayment p (a / 12 / 100) (y * 12).toNat * ((y * 12 : ℤ) : ℚ)),
          JSInt.int (y * 12)⟩
        amortizationBody := scheduleRows (JSNum.fin p) (JSNum.fin (a / 12 / 100))
          (JSNum.fin ((y * 12 : ℤ) : ℚ)) (JSNum.fin (specPayment p (a / 12 / 100) (y * 12).toNat))
        paymentChart := some (JSNum.fin p,
          JSNum.fin (specPayment p (a / 12 / 100) (y * 12).toNat * ((y * 12 : ℤ) : ℚ) - p))
        alerts := page.alerts } := by
  have hr : (0 : ℚ) ≤ a / 12 / 100 := by positivity
  have hn : 0 < y * 12 := by omega
  simp only [calculateEMI, calculateEMI.not_invalid p a y hp ha hy,
    calculateEMI.monthlyInterestRate_fin, calculateEMI.months, JSInt.mulLit,
    calculateEMI.emi_eq_specPayment p _ _ hr hn, calculateEMI.totalPaymentAmount,
    calculateEMI.totalInterestAmount, JSInt.toNum_int, JSNum.mul_fin, JSNum.sub_fin,
    displayResults, generateAmortizationSchedule, createPaymentChart]
  simp

/-! ## Facts about the payment formula -/

theorem growth_sub_one_le (r : ℚ) (hr : 0 ≤ r) (n : ℕ) :
    (1 + r) ^ n - 1 ≤ n * r * (1 + r) ^ n := by
  induction n with
  | zero => simp
  | succ k ih =>
    have h1 : (1 : ℚ) ≤ (1 + r) ^ (k + 1) := one_le_pow₀ (by linarith)
    have h2 : (1 + r) ^ (k + 1) = (1 + r) ^ k * (1 + r) := pow_succ _ _
    have h3 : 0 ≤ r * ((1 + r) ^ (k + 1) - 1) := mul_nonneg hr (by linarith)
    have h4 : ((1 + r) ^ k - 1) * (1 + r) ≤ k * r * (1 + r) ^ k * (1 + r) :=
      mul_le_mul_of_nonneg_right ih (by linarith)
    push_cast
    rw [h2] at h1 h3 ⊢
    nlinarith

theorem specPayment_pos (p r : ℚ) (n : ℕ) (hp : 0 < p) (hr : 0 ≤ r) (hn : n ≠ 0) :
    0 < specPayment p r n := by
  unfold specPayment
  split
  · have : (0 : ℚ) < n := by exact_mod_cast Nat.pos_of_ne_zero hn
    positivity
  · rename_i h
    have hpos : 0 < r := lt_of_le_of_ne hr (Ne.symm h)
    have hg := one_lt_growth r n hpos hn
    have hd : 0 < (1 + r) ^ n - 1 := by linarith
    have hx : 0 < (1 + r) ^ n := by linarith
    positivity

theorem specPayment_total_ge (p r : ℚ) (n : ℕ) (hp : 0 < p) (hr : 0 < r) (hn : n ≠ 0) :
    p ≤ specPayment p r n * n := by
  have hg := one_lt_growth r n hr hn
  have hd : 0 < (1 + r) ^ n - 1 := by linarith
  have hb := growth_sub_one_le r hr.le n
  have he : specPayment p r n * n = p * (n * r * (1 + r) ^ n) / ((1 + r) ^ n - 1) := by
    simp only [specPayment, if_neg hr.ne.symm]
    field_simp
    ring
  rw [he, le_div_iff₀ hd]
  exact mul_le_mul_of_nonneg_left hb hp.le

theorem specPayment_total_zero (p : ℚ) (n : ℕ) (hn : n ≠ 0) :
    specPayment p 0 n * n = p := by
  have : (n : ℚ) ≠ 0 := by exact_mod_cast hn
  simp [specPayment]
  field_simp

/-! ## The claims about calculateEMI on accepted input -/

/-- C1: on every accepted input (principal > 0, annualInterestRate >= 0,
years > 0), with monthlyRate = annualInterestRate / 12 / 100 and
months = years * 12, the EMI that calculateEMI hands to displayResults is
principal / months when monthlyRate is 0, and otherwise
principal * monthlyRate * (1 + monthlyRate)^months / ((1 + monthlyRate)^months - 1),
in exact rational arithmetic. -/
theorem calculateEMI_emi_formula (principal annualInterestRate : ℚ) (years : ℤ) (page : Page)
    (hp : 0 < principal) (hr : 0 ≤ annualInterestRate) (hy : 0 < years) :
    ((calculateEMI (JSNum.fin principal) (JSNum.fin annualInterestRate)
        (JSInt.int years) page).results.map Results.emi
      = some (JSNum.fin
          (if annualInterestRate / 12 / 100 = 0 then
            principal / (((years * 12).toNat : ℕ) : ℚ)
          else
            principal * (annualInterestRate / 12 / 100) *
                (1 + annualInterestRate / 12 / 100) ^ (years * 12).toNat /
              ((1 + annualInterestRate / 12 / 100) ^ (years * 12).toNat - 1))))
    ∧ (calculateEMI (JSNum.fin principal) (JSNum.fin annualInterestRate)
        (JSInt.int years) page).results.map Results.months
      = some (JSInt.int (years * 12)) := by
  rw [calculateEMI.accepted principal annualInterestRate years page hp hr hy]
  simp [specPayment]

/-- C1, the scenario of the claim: principal 1200000 at rate 0 over 10 years
is accepted, has 120 months and an EMI of exactly 10000. -/
theorem calculateEMI_emi_formula_witness :
    (0 : ℚ) < 1200000 ∧ (0 : ℚ) ≤ 0 ∧ (0 : ℤ) < 10 ∧
    (calculateEMI (JSNum.fin 1200000) (JSNum.fin 0) (JSInt.int 10) emptyPage).results.map
        Results.emi = some (JSNum.fin 10000) ∧
    (calculateEMI (JSNum.fin 1200000) (JSNum.fin 0) (JSInt.int 10) emptyPage).results.map
        Results.months = some (JSInt.int 120) := by
  have h := calculateEMI_emi_formula 1200000 0 10 emptyPage (by norm_num) (by norm_num)
    (by norm_num)
  refine ⟨by norm_num, by norm_num, by norm_num, ?_, ?_⟩
  · have e : ((10 : ℤ) * 12).toNat = 120 := by decide
    rw [h.1, e]; norm_num
  · rw [h.2]; norm_num

/-- C3: for every principal > 0, annual rate >= 0 and term in years > 0, the
values calculateEMI hands to displayResults are finite and satisfy: EMI > 0,
totalPaymentAmount = EMI * months, totalInterestAmount = totalPaymentAmount -
principal, totalInterestAmount >= 0 when the rate is positive, and
totalInterestAmount = 0 when the rate is 0 (exact arithmetic). -/
theorem calculateEMI_totals (principal annualInterestRate : ℚ) (years : ℤ) (page : Page)
    (hp : 0 < principal) (hr : 0 ≤ annualInterestRate) (hy : 0 < years) :
    ∃ emi totalPaymentAmount totalInterestAmount : ℚ,
      (calculateEMI (JSNum.fin principal) (JSNum.fin annualInterestRate)
          (JSInt.int years) page).results
        = some ⟨JSNum.fin emi, JSNum.fin totalInterestAmount,
            JSNum.fin totalPaymentAmount, JSInt.int (years * 12)⟩
      ∧ 0 < emi
      ∧ totalPaymentAmount = emi * ((years * 12 : ℤ) : ℚ)
      ∧ totalInterestAmount = totalPaymentAmount - principal
      ∧ (0 < annualInterestRate → 0 ≤ totalInterestAmount)
      ∧ (annualInterestRate = 0 → totalInterestAmount = 0) := by
  have hn : 0 < years * 12 := by omega
  have hn0 : (years * 12).toNat ≠ 0 := toNat_ne_zero_of_pos _ hn
  have hm : 0 ≤ annualInterestRate / 12 / 100 := by positivity
  refine ⟨specPayment principal (annualInterestRate / 12 / 100) (years * 12).toNat, _, _,
    ?_, specPayment_pos _ _ _ hp hm hn0, rfl, rfl, ?_, ?_⟩
  · rw [calculateEMI.accepted principal annualInterestRate years page hp hr hy]
  · intro hpos
    have hm1 : 0 < annualInterestRate / 12 / 100 := by positivity
    have h := specPayment_total_ge principal _ (years * 12).toNat hp hm1 hn0
    rw [cast_toNat_of_pos _ hn] at h
    linarith
  · intro h0
    have h := specPayment_total_zero principal (years * 12).toNat hn0
    rw [cast_toNat_of_pos _ hn] at h
    rw [h0]
    norm_num
    push_cast at h
    linarith

/-- C3 at principal 1200000, rate 0, 10 years. -/
theorem calculateEMI_totals_witness :
    (0 : ℚ) < 1200000 ∧ (0 : ℚ) ≤ 0 ∧ (0 : ℤ) < 10 ∧
    ∃ emi totalPaymentAmount totalInterestAmount : ℚ,
      (calculateEMI (JSNum.fin 1200000) (JSNum.fin 0) (JSInt.int 10) emptyPage).results
        = some ⟨JSNum.fin emi, JSNum.fin totalInterestAmount,
            JSNum.fin totalPaymentAmount, JSInt.int (10 * 12)⟩
      ∧ 0 < emi
      ∧ totalPaymentAmount = emi * (((10 : ℤ) * 12 : ℤ) : ℚ)
      ∧ totalInterestAmount = totalPaymentAmount - 1200000
      ∧ ((0 : ℚ) < 0 → 0 ≤ totalInterestAmount)
      ∧ ((0 : ℚ) = 0 → totalInterestAmount = 0) :=
  ⟨by norm_num, by norm_num, by norm_num,
    calculateEMI_totals 1200000 0 10 emptyPage (by norm_num) (by norm_num) (by norm_num)⟩

/-- An infinite rate (with principal 500000 and 20 years) is accepted by the
validation and takes the non-zero-rate branch, where the divisor is Infinity
and the quotient Infinity / Infinity is NaN: the formula fails. -/
theorem accepted_infinite_rate_emi_is_nan :
    calculateEMI.invalid (JSNum.fin 500000) JSNum.posInf (JSInt.int 20) = false
    ∧ (calculateEMI.monthlyInterestRate JSNum.posInf).isZero = false
    ∧ calculateEMI.numerator (JSNum.fin 500000)
        (calculateEMI.monthlyInterestRate JSNum.posInf)
        (calculateEMI.months (JSInt.int 20)) = JSNum.posInf
    ∧ calculateEMI.denominator (calculateEMI.monthlyInterestRate JSNum.posInf)
        (calculateEMI.months (JSInt.int 20)) = JSNum.posInf
    ∧ calculateEMI.emi (JSNum.fin 500000) (calculateEMI.monthlyInterestRate JSNum.posInf)
        (calculateEMI.months (JSInt.int 20)) = JSNum.nan := by
  have hm : calculateEMI.monthlyInterestRate JSNum.posInf = JSNum.posInf := by
    simp [calculateEMI.monthlyInterestRate, JSNum.div]
  have hn : calculateEMI.numerator (JSNum.fin 500000) JSNum.posInf
      (calculateEMI.months (JSInt.int 20)) = JSNum.posInf := by
    simp [calculateEMI.numerator, calculateEMI.months, JSInt.mulLit, Math.pow, JSNum.add,
      JSNum.mul, JSNum.infTimes]
  have hd : calculateEMI.denominator JSNum.posInf (calculateEMI.months (JSInt.int 20))
      = JSNum.posInf := by
    simp [calculateEMI.denominator, calculateEMI.months, JSInt.mulLit, Math.pow, JSNum.add,
      JSNum.sub, JSNum.neg]
  rw [hm]
  refine ⟨?_, rfl, hn, hd, ?_⟩
  · simp [calculateEMI.invalid, JSNum.isNaN, JSNum.lt]
  · rw [calculateEMI.emi, hn, hd]
    simp [JSNum.isZero, JSNum.div]

/-- C9, amended: for every finite input accepted by the validation of
calculateEMI (principal > 0, rate >= 0, years a positive integer), in exact
arithmetic, no division of the EMI computation has a zero divisor: in the
zero-rate branch the divisor months = years * 12 is a non-zero finite number,
in the other branch the divisor (1 + monthlyRate)^months - 1 is a strictly
positive finite number, and the EMI is a finite number (neither NaN nor
infinite). -/
theorem calculateEMI_no_zero_divisor (principal annualInterestRate : ℚ) (years : ℤ)
    (hp : 0 < principal) (hr : 0 ≤ annualInterestRate) (hy : 0 < years) :
    calculateEMI.invalid (JSNum.fin principal) (JSNum.fin annualInterestRate)
        (JSInt.int years) = false
    ∧ ((calculateEMI.monthlyInterestRate (JSNum.fin annualInterestRate)).isZero = true →
        ∃ m : ℚ, (calculateEMI.months (JSInt.int years)).toNum = JSNum.fin m ∧ m ≠ 0)
    ∧ ((calculateEMI.monthlyInterestRate (JSNum.fin annualInterestRate)).isZero = false →
        ∃ d : ℚ, calculateEMI.denominator
            (calculateEMI.monthlyInterestRate (JSNum.fin annualInterestRate))
            (calculateEMI.months (JSInt.int years)) = JSNum.fin d ∧ 0 < d)
    ∧ ∃ e : ℚ, calculateEMI.emi (JSNum.fin principal)
        (calculateEMI.monthlyInterestRate (JSNum.fin annualInterestRate))
        (calculateEMI.months (JSInt.int years)) = JSNum.fin e := by
  have hn : 0 < years * 12 := by omega
  have hm : 0 ≤ annualInterestRate / 12 / 100 := by positivity
  refine ⟨calculateEMI.not_invalid _ _ _ hp hr hy, ?_, ?_, ?_⟩
  · intro _
    refine ⟨((years * 12 : ℤ) : ℚ), rfl, ?_⟩
    exact_mod_cast hn.ne.symm
  · intro hz
    rw [calculateEMI.monthlyInterestRate_fin] at hz ⊢
    have hne : annualInterestRate / 12 / 100 ≠ 0 := by simpa using hz
    have hpos : 0 < annualInterestRate / 12 / 100 := lt_of_le_of_ne hm (Ne.symm hne)
    refine ⟨_, calculateEMI.denominator_fin _ _ hn, ?_⟩
    have := one_lt_growth _ (years * 12).toNat hpos (toNat_ne_zero_of_pos _ hn)
    linarith
  · rw [calculateEMI.monthlyInterestRate_fin]
    exact ⟨_, calculateEMI.emi_eq_specPayment _ _ _ hm hn⟩

/-- C9 at the default input: principal 500000, rate 8.5, 20 years. -/
theorem calculateEMI_no_zero_divisor_witness :
    (0 : ℚ) < 500000 ∧ (0 : ℚ) ≤ 17 / 2 ∧ (0 : ℤ) < 20 ∧
    ∃ e : ℚ, calculateEMI.emi (JSNum.fin 500000)
        (calculateEMI.monthlyInterestRate (JSNum.fin (17 / 2)))
        (calculateEMI.months (JSInt.int 20)) = JSNum.fin e :=
  ⟨by norm_num, by norm_num, by norm_num,
    (calculateEMI_no_zero_divisor 500000 (17 / 2) 20 (by norm_num) (by norm_num)
      (by norm_num)).2.2.2⟩

/-! ## The loop of generateAmortizationSchedule -/

theorem loop_condition (m n : ℕ) :
    JSNum.le (JSNum.fin (m : ℚ)) (Math.min (JSNum.fin 12) (JSNum.fin (n : ℚ)))
      = decide (m ≤ min 12 n) := by
  rw [Math.min_fin, JSNum.le_fin]
  have h : ((min 12 n : ℕ) : ℚ) = Min.min (12 : ℚ) (n : ℚ) := by push_cast; rfl
  rw [← h]
  simp only [Nat.cast_le]

/-- The loop, unrolled: with enough passes allowed it writes one row for each
month from the starting one up to min(12, months). -/
theorem generateAmortizationSchedule.loop_eq (r e : JSNum) (n : ℕ) :
    ∀ (fuel m : ℕ) (b : JSNum), min 12 n + 1 - m ≤ fuel →
      generateAmortizationSchedule.loop r (JSNum.fin (n : ℚ)) e fuel m b
        = (List.range (min 12 n + 1 - m)).map
            (fun i => generateAmortizationSchedule.row r e (m + i)
              ((generateAmortizationSchedule.nextBalance r e)^[i] b)) := by
  intro fuel
  induction fuel with
  | zero =>
    intro m b h
    have h0 : min 12 n + 1 - m = 0 := by omega
    simp [generateAmortizationSchedule.loop, h0]
  | succ f ih =>
    intro m b h
    rw [generateAmortizationSchedule.loop, loop_condition]
    by_cases hm : m ≤ min 12 n
    · have h1 : min 12 n + 1 - m = (min 12 n + 1 - (m + 1)) + 1 := by omega
      rw [if_pos (by simpa using hm), ih (m + 1) _ (by omega), h1, List.range_succ_eq_map]
      simp only [List.map_cons, List.map_map, Function.iterate_zero, id_eq, Nat.add_zero]
      congr 1
      apply List.map_congr_left
      intro i _
      simp only [Function.comp_apply, Function.iterate_succ_apply, Nat.succ_eq_add_one]
      congr 1
      omega
    · have h0 : min 12 n + 1 - m = 0 := by omega
      rw [if_neg (by simpa using hm), h0]
      rfl

theorem loop_condition_le_twelve (months : JSNum) (m : ℕ)
    (h : JSNum.le (JSNum.fin (m : ℚ)) (Math.min (JSNum.fin 12) months) = true) : m ≤ 12 := by
  cases months with
  | nan => simp [Math.min, JSNum.isNaN, JSNum.le] at h
  | posInf =>
    have h1 : (m : ℚ) ≤ 12 := by simpa [Math.min, JSNum.isNaN, JSNum.le] using h
    exact_mod_cast h1
  | negInf => simp [Math.min, JSNum.isNaN, JSNum.le] at h
  | fin q =>
    rw [Math.min_fin, JSNum.le_fin] at h
    have h1 : (m : ℚ) ≤ 12 := le_trans (by simpa using h) (min_le_left _ _)
    exact_mod_cast h1

theorem generateAmortizationSchedule.loop_succ (r months e : JSNum) (fuel m : ℕ) (b : JSNum) :
    generateAmortizationSchedule.loop r months e (fuel + 1) m b
      = if JSNum.le (JSNum.fin (m : ℚ)) (Math.min (JSNum.fin 12) months) = true then
          generateAmortizationSchedule.row r e m b ::
            generateAmortizationSchedule.loop r months e fuel (m + 1)
              (generateAmortizationSchedule.nextBalance r e b)
        else [] := rfl

/-- Twelve passes are all the loop can make, whatever months is: allowing
more changes nothing. -/
theorem generateAmortizationSchedule.loop_fuel (r months e : JSNum) :
    ∀ (fuel m : ℕ) (b : JSNum), 13 ≤ fuel + m →
      generateAmortizationSchedule.loop r months e (fuel + 1) m b
        = generateAmortizationSchedule.loop r months e fuel m b := by
  intro fuel
  induction fuel with
  | zero =>
    intro m b h
    rw [generateAmortizationSchedule.loop_succ]
    by_cases hc : JSNum.le (JSNum.fin (m : ℚ)) (Math.min (JSNum.fin 12) months) = true
    · have := loop_condition_le_twelve months m hc
      omega
    · rw [if_neg hc]
      rfl
  | succ f ih =>
    intro m b h
    rw [generateAmortizationSchedule.loop_succ r months e (f + 1) m b,
      generateAmortizationSchedule.loop_succ r months e f m b]
    by_cases hc : JSNum.le (JSNum.fin (m : ℚ)) (Math.min (JSNum.fin 12) months) = true
    · rw [if_pos hc, if_pos hc, ih (m + 1) _ (by omega)]
    · rw [if_neg hc, if_neg hc]

theorem scheduleRows_eq (P r e : JSNum) (n : ℕ) :
    scheduleRows P r (JSNum.fin (n : ℚ)) e
      = (List.range (min 12 n)).map
          (fun i => generateAmortizationSchedule.row r e (1 + i)
            ((generateAmortizationSchedule.nextBalance r e)^[i] P)) := by
  rw [scheduleRows, generateAmortizationSchedule.loop_eq r e n 12 1 P (by omega)]
  simp

theorem balanceAfter_succ (r e P : ℚ) (k : ℕ) :
    balanceAfter r e P (k + 1) = balanceAfter r e P k - (e - balanceAfter r e P k * r) := by
  rw [balanceAfter, Function.iterate_succ_apply']
  rfl

theorem nextBalance_iterate_fin (r e P : ℚ) (k : ℕ) :
    (generateAmortizationSchedule.nextBalance (JSNum.fin r) (JSNum.fin e))^[k] (JSNum.fin P)
      = JSNum.fin (balanceAfter r e P k) := by
  induction k with
  | zero => rfl
  | succ k ih =>
    rw [Function.iterate_succ_apply', ih, balanceAfter_succ]
    simp [generateAmortizationSchedule.nextBalance]

theorem row_fin (r e b : ℚ) (m : ℕ) :
    generateAmortizationSchedule.row (JSNum.fin r) (JSNum.fin e) m (JSNum.fin b)
      = ⟨m, JSNum.fin e, JSNum.fin (e - b * r), JSNum.fin (b * r),
          JSNum.fin (Max.max 0 (b - (e - b * r)))⟩ := by
  simp [generateAmortizationSchedule.row, Math.max_fin]

theorem scheduleRows_fin (P r e : ℚ) (n : ℕ) :
    scheduleRows (JSNum.fin P) (JSNum.fin r) (JSNum.fin (n : ℚ)) (JSNum.fin e)
      = (List.range (min 12 n)).map
          (fun i => (⟨1 + i, JSNum.fin e, JSNum.fin (e - balanceAfter r e P i * r),
            JSNum.fin (balanceAfter r e P i * r),
            JSNum.fin (Max.max 0 (balanceAfter r e P (i + 1)))⟩ : Row)) := by
  rw [scheduleRows_eq]
  apply List.map_congr_left
  intro i _
  rw [nextBalance_iterate_fin, row_fin, balanceAfter_succ]

theorem scheduleRows_finalBalance (P r e : ℚ) (n k : ℕ) (hk : k < min 12 n) :
    ((scheduleRows (JSNum.fin P) (JSNum.fin r) (JSNum.fin (n : ℚ)) (JSNum.fin e))[k]?).map
        Row.finalBalance
      = some (JSNum.fin (Max.max 0 (balanceAfter r e P (k + 1)))) := by
  rw [scheduleRows_fin, List.getElem?_map, List.getElem?_range hk]
  rfl

/-- At an infinite principal (monthly rate 1/100, 12 months, payment 100) the
first row has interest component Infinity and principal component minus
Infinity, whose sum is NaN, so it is not true that in every row
interestComponent + principalComponent equals the payment. -/
theorem infinite_principal_row_sum_is_nan :
    (generateAmortizationSchedule JSNum.posInf (JSNum.fin (1 / 100))
        (JSNum.fin ((12 : ℕ) : ℚ)) (JSNum.fin 100) emptyPage).amortizationBody[0]?
      = some ⟨1, JSNum.fin 100, JSNum.negInf, JSNum.posInf, JSNum.posInf⟩
    ∧ JSNum.add JSNum.posInf JSNum.negInf = JSNum.nan
    ∧ ¬ ∀ row ∈ (generateAmortizationSchedule JSNum.posInf (JSNum.fin (1 / 100))
        (JSNum.fin ((12 : ℕ) : ℚ)) (JSNum.fin 100) emptyPage).amortizationBody,
        JSNum.add row.interestComponent row.principalComponent = JSNum.fin 100 := by
  have h0 : (generateAmortizationSchedule JSNum.posInf (JSNum.fin (1 / 100))
        (JSNum.fin ((12 : ℕ) : ℚ)) (JSNum.fin 100) emptyPage).amortizationBody[0]?
      = some ⟨1, JSNum.fin 100, JSNum.negInf, JSNum.posInf, JSNum.posInf⟩ := by
    have hlt : (0 : ℕ) < min 12 12 := by decide
    simp only [generateAmortizationSchedule]
    rw [scheduleRows_eq, List.getElem?_map, List.getElem?_range hlt]
    simp [generateAmortizationSchedule.row, JSNum.mul, JSNum.infTimes, JSNum.sub, JSNum.neg,
      JSNum.add, Math.max, JSNum.isNaN, JSNum.le]
  refine ⟨h0, rfl, ?_⟩
  intro h
  have hmem := List.getElem?_mem h0
  have := h _ hmem
  simp [JSNum.add] at this

/-- C4, amended: for every principal, monthlyRate and emi (finite or not) and
every months >= 1, generateAmortizationSchedule writes exactly min(12, months)
rows, numbered 1, 2, ... in order, each carrying the payment emi; and for
finite principal, monthlyRate >= 0 and emi, in exact arithmetic, in every row
interestComponent + principalComponent equals emi. -/
theorem generateAmortizationSchedule_rows_exact (principal monthlyRate emi : JSNum)
    (p r e : ℚ) (months : ℕ) (page : Page) (_hr : 0 ≤ r) (_hm : 1 ≤ months) :
    ((generateAmortizationSchedule principal monthlyRate (JSNum.fin (months : ℚ)) emi
        page).amortizationBody.length = min 12 months
      ∧ (generateAmortizationSchedule principal monthlyRate (JSNum.fin (months : ℚ)) emi
        page).amortizationBody.map Row.month = List.range' 1 (min 12 months)
      ∧ ∀ row ∈ (generateAmortizationSchedule principal monthlyRate
        (JSNum.fin (months : ℚ)) emi page).amortizationBody, row.emi = emi)
    ∧ ∀ row ∈ (generateAmortizationSchedule (JSNum.fin p) (JSNum.fin r)
        (JSNum.fin (months : ℚ)) (JSNum.fin e) page).amortizationBody,
        JSNum.add row.interestComponent row.principalComponent = JSNum.fin e := by
  constructor
  · simp only [generateAmortizationSchedule, scheduleRows_eq]
    refine ⟨by simp, ?_, ?_⟩
    · rw [List.range'_eq_map_range, List.map_map]
      rfl
    · intro row hrow
      rw [List.mem_map] at hrow
      obtain ⟨i, _, rfl⟩ := hrow
      rfl
  · simp only [generateAmortizationSchedule, scheduleRows_fin]
    intro row hrow
    rw [List.mem_map] at hrow
    obtain ⟨i, _, rfl⟩ := hrow
    simp

/-- C4, amended, at monthly rate 1/100, 24 months and payment 100, with
principal 1200 and with an infinite principal: twelve rows in both cases. -/
theorem generateAmortizationSchedule_rows_exact_witness :
    (0 : ℚ) ≤ 1 / 100 ∧ 1 ≤ 24 ∧
    (generateAmortizationSchedule JSNum.posInf (JSNum.fin (1 / 100))
        (JSNum.fin ((24 : ℕ) : ℚ)) (JSNum.fin 100) emptyPage).amortizationBody.length
      = min 12 24
    ∧ ∀ row ∈ (generateAmortizationSchedule (JSNum.fin 1200) (JSNum.fin (1 / 100))
        (JSNum.fin ((24 : ℕ) : ℚ)) (JSNum.fin 100) emptyPage).amortizationBody,
        JSNum.add row.interestComponent row.principalComponent = JSNum.fin 100 :=
  ⟨by norm_num, by norm_num,
    (generateAmortizationSchedule_rows_exact JSNum.posInf (JSNum.fin (1 / 100))
      (JSNum.fin 100) 1200 (1 / 100) 100 24 emptyPage (by norm_num) (by norm_num)).1.1,
    (generateAmortizationSchedule_rows_exact JSNum.posInf (JSNum.fin (1 / 100))
      (JSNum.fin 100) 1200 (1 / 100) 100 24 emptyPage (by norm_num) (by norm_num)).2⟩

theorem balanceAfter_step_le (r e P : ℚ) (hr : 0 < r) (he : P * r < e) (k : ℕ) :
    balanceAfter r e P k ≤ P ∧ balanceAfter r e P (k + 1) ≤ balanceAfter r e P k := by
  induction k with
  | zero =>
    refine ⟨le_of_eq rfl, ?_⟩
    rw [balanceAfter_succ]
    have h0 : balanceAfter r e P 0 = P := rfl
    rw [h0]
    linarith
  | succ k ih =>
    have h1 : balanceAfter r e P (k + 1) ≤ P := le_trans ih.2 ih.1
    refine ⟨h1, ?_⟩
    rw [balanceAfter_succ r e P (k + 1)]
    have h2 : balanceAfter r e P (k + 1) * r ≤ P * r := mul_le_mul_of_nonneg_right h1 hr.le
    linarith

/-- C5: in the non-degenerate case (principal > 0, monthlyRate > 0 and
emi > principal * monthlyRate) the remaining balances shown in the rows of
generateAmortizationSchedule (the values max(0, balance)) are finite, never
increase from a row to a later one, are never negative and are at most the
principal (in the first row as in every other). -/
theorem generateAmortizationSchedule_balance_monotone (principal monthlyRate emi : ℚ)
    (months : ℕ) (page : Page)
    (hp : 0 < principal) (hr : 0 < monthlyRate) (he : principal * monthlyRate < emi) :
    ∃ balances : List ℚ,
      (generateAmortizationSchedule (JSNum.fin principal) (JSNum.fin monthlyRate)
          (JSNum.fin (months : ℚ)) (JSNum.fin emi) page).amortizationBody.map Row.finalBalance
        = balances.map JSNum.fin
      ∧ balances.length = min 12 months
      ∧ List.Pairwise (fun earlier later => later ≤ earlier) balances
      ∧ ∀ b ∈ balances, 0 ≤ b ∧ b ≤ principal := by
  refine ⟨(List.range (min 12 months)).map
    (fun i => Max.max 0 (balanceAfter monthlyRate emi principal (i + 1))), ?_, by simp, ?_, ?_⟩
  · simp only [generateAmortizationSchedule, scheduleRows_fin, List.map_map]
    rfl
  · rw [List.pairwise_map]
    refine (List.pairwise_lt_range _).imp ?_
    intro i j hij
    have hanti : Antitone (balanceAfter monthlyRate emi principal) :=
      antitone_nat_of_succ_le (fun k => (balanceAfter_step_le _ _ _ hr he k).2)
    exact max_le_max (le_refl 0) (hanti (by omega))
  · intro b hb
    rw [List.mem_map] at hb
    obtain ⟨i, _, rfl⟩ := hb
    exact ⟨le_max_left _ _,
      max_le hp.le (balanceAfter_step_le _ _ _ hr he (i + 1)).1⟩

/-- C5 at principal 1200, monthly rate 1/100 and payment 100 over 24 months. -/
theorem generateAmortizationSchedule_balance_monotone_witness :
    (0 : ℚ) < 1200 ∧ (0 : ℚ) < 1 / 100 ∧ (1200 : ℚ) * (1 / 100) < 100 ∧
    ∃ balances : List ℚ,
      (generateAmortizationSchedule (JSNum.fin 1200) (JSNum.fin (1 / 100))
          (JSNum.fin ((24 : ℕ) : ℚ)) (JSNum.fin 100) emptyPage).amortizationBody.map
            Row.finalBalance
        = balances.map JSNum.fin
      ∧ balances.length = min 12 24
      ∧ List.Pairwise (fun earlier later => later ≤ earlier) balances
      ∧ ∀ b ∈ balances, 0 ≤ b ∧ b ≤ 1200 :=
  ⟨by norm_num, by norm_num, by norm_num,
    generateAmortizationSchedule_balance_monotone 1200 (1 / 100) 100 24 emptyPage
      (by norm_num) (by norm_num) (by norm_num)⟩

/-! ## Full amortization -/

theorem balanceAfter_specPayment (P r : ℚ) (n : ℕ) (hr : 0 < r) (hn : n ≠ 0) (k : ℕ) :
    balanceAfter r (specPayment P r n) P k
      = P * ((1 + r) ^ n - (1 + r) ^ k) / ((1 + r) ^ n - 1) := by
  have hg := one_lt_growth r n hr hn
  have hd : (1 + r) ^ n - 1 ≠ 0 := by linarith
  induction k with
  | zero =>
    have h0 : balanceAfter r (specPayment P r n) P 0 = P := rfl
    rw [h0, pow_zero]
    field_simp
  | succ k ih =>
    rw [balanceAfter_succ, ih]
    simp only [specPayment, if_neg hr.ne.symm]
    field_simp
    ring

theorem closed_form_nonneg (P r : ℚ) (n k : ℕ) (hP : 0 < P) (hr : 0 < r) (hn : n ≠ 0)
    (hk : k ≤ n) : 0 ≤ P * ((1 + r) ^ n - (1 + r) ^ k) / ((1 + r) ^ n - 1) := by
  have hg := one_lt_growth r n hr hn
  have hd : 0 < (1 + r) ^ n - 1 := by linarith
  have hle : (1 + r) ^ k ≤ (1 + r) ^ n := pow_le_pow_right₀ (by linarith) hk
  have hnum : 0 ≤ (1 + r) ^ n - (1 + r) ^ k := by linarith
  positivity

/-- C10: for every principal > 0, monthlyRate > 0 and months >= 1, with emi
the value calculateEMI computes, the unclamped balance of the loop of
generateAmortizationSchedule after k passes is
principal * ((1 + monthlyRate)^months - (1 + monthlyRate)^k) / ((1 + monthlyRate)^months - 1)
for every k <= months, and that value is non-negative; every written row
shows exactly this value (the clamp max(0, .) does not change it); the balance
is exactly 0 after months passes; and for a 1-year loan run through
calculateEMI at any positive annual rate the 12th row shows remaining
balance 0. -/
theorem full_amortization (principal monthlyRate : ℚ) (months : ℕ) (page : Page)
    (hp : 0 < principal) (hr : 0 < monthlyRate) (hm : 1 ≤ months) :
    (∀ k, k ≤ months →
      (generateAmortizationSchedule.nextBalance (JSNum.fin monthlyRate)
          (calculateEMI.emi (JSNum.fin principal) (JSNum.fin monthlyRate)
            (JSInt.int (months : ℤ))))^[k] (JSNum.fin principal)
        = JSNum.fin (principal * ((1 + monthlyRate) ^ months - (1 + monthlyRate) ^ k)
            / ((1 + monthlyRate) ^ months - 1))
      ∧ 0 ≤ principal * ((1 + monthlyRate) ^ months - (1 + monthlyRate) ^ k)
            / ((1 + monthlyRate) ^ months - 1))
    ∧ (∀ k, k < min 12 months →
      (((generateAmortizationSchedule (JSNum.fin principal) (JSNum.fin monthlyRate)
          (JSNum.fin (months : ℚ))
          (calculateEMI.emi (JSNum.fin principal) (JSNum.fin monthlyRate)
            (JSInt.int (months : ℤ))) page).amortizationBody)[k]?).map Row.finalBalance
        = some (JSNum.fin
            (principal * ((1 + monthlyRate) ^ months - (1 + monthlyRate) ^ (k + 1))
              / ((1 + monthlyRate) ^ months - 1))))
    ∧ (generateAmortizationSchedule.nextBalance (JSNum.fin monthlyRate)
          (calculateEMI.emi (JSNum.fin principal) (JSNum.fin monthlyRate)
            (JSInt.int (months : ℤ))))^[months] (JSNum.fin principal)
        = JSNum.fin 0
    ∧ (∀ annualInterestRate : ℚ, 0 < annualInterestRate →
      (((calculateEMI (JSNum.fin principal) (JSNum.fin annualInterestRate) (JSInt.int 1)
          page).amortizationBody)[11]?).map Row.finalBalance = some (JSNum.fin 0)) := by
  have hn : months ≠ 0 := by omega
  have hz : (0 : ℤ) < (months : ℤ) := by omega
  have hemi : calculateEMI.emi (JSNum.fin principal) (JSNum.fin monthlyRate)
      (JSInt.int (months : ℤ)) = JSNum.fin (specPayment principal monthlyRate months) := by
    rw [calculateEMI.emi_eq_specPayment _ _ _ hr.le hz, Int.toNat_ofNat]
  rw [hemi]
  refine ⟨?_, ?_, ?_, ?_⟩
  · intro k hk
    rw [nextBalance_iterate_fin, balanceAfter_specPayment _ _ _ hr hn]
    exact ⟨rfl, closed_form_nonneg _ _ _ _ hp hr hn hk⟩
  · intro k hk
    have hk1 : k + 1 ≤ months := by omega
    simp only [generateAmortizationSchedule]
    rw [scheduleRows_finalBalance _ _ _ _ _ hk, balanceAfter_specPayment _ _ _ hr hn,
      max_eq_right (closed_form_nonneg _ _ _ _ hp hr hn hk1)]
  · rw [nextBalance_iterate_fin, balanceAfter_specPayment _ _ _ hr hn]
    simp
  · intro a ha
    have hm1 : 0 < a / 12 / 100 := by positivity
    have e1 : ((1 : ℤ) * 12).toNat = 12 := by decide
    have e2 : (((1 : ℤ) * 12 : ℤ) : ℚ) = ((12 : ℕ) : ℚ) := by norm_num
    rw [calculateEMI.accepted principal a 1 page hp ha.le (by norm_num)]
    simp only [e1, e2]
    rw [scheduleRows_finalBalance _ _ _ 12 11 (by decide),
      balanceAfter_specPayment _ _ _ hm1 (by norm_num)]
    simp

/-- C10 at principal 1200, monthly rate 1/100 over 12 months: the balance
after 12 passes is 0. -/
theorem full_amortization_witness :
    (0 : ℚ) < 1200 ∧ (0 : ℚ) < 1 / 100 ∧ 1 ≤ 12 ∧
    (generateAmortizationSchedule.nextBalance (JSNum.fin (1 / 100))
        (calculateEMI.emi (JSNum.fin 1200) (JSNum.fin (1 / 100))
          (JSInt.int ((12 : ℕ) : ℤ))))^[12] (JSNum.fin 1200)
      = JSNum.fin 0 :=
  ⟨by norm_num, by norm_num, by norm_num,
    (full_amortization 1200 (1 / 100) 12 emptyPage (by norm_num) (by norm_num)
      (by norm_num)).2.2.1⟩

/-! ## The default scenario: 500000 at 8.5 percent over 20 years -/

theorem specPayment_default_bounds :
    (4339116 : ℚ) / 1000 < specPayment 500000 (17 / 2 / 12 / 100) 240
    ∧ specPayment 500000 (17 / 2 / 12 / 100) 240 < 4339117 / 1000 := by
  have h : ((17 : ℚ) / 2 / 12 / 100) ≠ 0 := by norm_num
  simp only [specPayment, if_neg h]
  constructor <;> norm_num

theorem scheduleRows_first (P r e : ℚ) (n : ℕ) (hn : 1 ≤ n) :
    (scheduleRows (JSNum.fin P) (JSNum.fin r) (JSNum.fin (n : ℚ)) (JSNum.fin e))[0]?
      = some ⟨1, JSNum.fin e, JSNum.fin (e - P * r), JSNum.fin (P * r),
          JSNum.fin (Max.max 0 (P - (e - P * r)))⟩ := by
  have h0 : 0 < min 12 n := by omega
  rw [scheduleRows_fin, List.getElem?_map, List.getElem?_range h0]
  rfl

/-- The reset runs calculateEMI on 500000, 8.5 and 20. -/
theorem resetCalculator_eq (page : Page) :
    resetCalculator page
      = calculateEMI (JSNum.fin 500000) (JSNum.fin (17 / 2)) (JSInt.int 20) page := rfl

/-- What calculateEMI writes at the default input, in terms of the payment. -/
theorem calculateEMI_default (page : Page) :
    (calculateEMI (JSNum.fin 500000) (JSNum.fin (17 / 2)) (JSInt.int 20) page).results
      = some ⟨JSNum.fin (specPayment 500000 (17 / 2 / 12 / 100) 240),
          JSNum.fin (specPayment 500000 (17 / 2 / 12 / 100) 240 * 240 - 500000),
          JSNum.fin (specPayment 500000 (17 / 2 / 12 / 100) 240 * 240),
          JSInt.int 240⟩
    ∧ (calculateEMI (JSNum.fin 500000) (JSNum.fin (17 / 2)) (JSInt.int 20)
        page).amortizationBody[0]?
      = some ⟨1, JSNum.fin (specPayment 500000 (17 / 2 / 12 / 100) 240),
          JSNum.fin (specPayment 500000 (17 / 2 / 12 / 100) 240
            - 500000 * (17 / 2 / 12 / 100)),
          JSNum.fin (500000 * (17 / 2 / 12 / 100)),
          JSNum.fin (Max.max 0 (500000 - (specPayment 500000 (17 / 2 / 12 / 100) 240
            - 500000 * (17 / 2 / 12 / 100))))⟩ := by
  have e1 : ((20 : ℤ) * 12).toNat = 240 := by decide
  have e2 : (((20 : ℤ) * 12 : ℤ) : ℚ) = 240 := by norm_num
  have e3 : (((20 : ℤ) * 12 : ℤ) : ℚ) = ((240 : ℕ) : ℚ) := by norm_num
  rw [calculateEMI.accepted 500000 (17 / 2) 20 page (by norm_num) (by norm_num) (by norm_num)]
  constructor
  · simp only [e1, e2]
    norm_num
  · simp only [e1, e3]
    exact scheduleRows_first _ _ _ 240 (by norm_num)

/-- C6 as stated fails: at principal 500000, rate 8.5, 20 years the figures
calculateEMI computes are not an EMI within 0.01 of 4341.92 with a total
payment within 1 of 1042061 and a total interest within 1 of 542061. -/
theorem calculateEMI_default_claimed_figures_fail :
    ¬ ∃ emi totalInterest totalPayment : ℚ,
      (calculateEMI (JSNum.fin 500000) (JSNum.fin (17 / 2)) (JSInt.int 20) emptyPage).results
        = some ⟨JSNum.fin emi, JSNum.fin totalInterest, JSNum.fin totalPayment,
            JSInt.int 240⟩
      ∧ |emi - 434192 / 100| ≤ 1 / 100
      ∧ |totalPayment - 1042061| ≤ 1
      ∧ |totalInterest - 542061| ≤ 1 := by
  rintro ⟨emi, ti, tp, h, he, -, -⟩
  rw [(calculateEMI_default emptyPage).1] at h
  injection h with h
  injection h with h1 h2 h3 h4
  injection h1 with h1
  have hb := specPayment_default_bounds
  rw [abs_le] at he
  rw [h1] at hb
  linarith [hb.1, hb.2, he.1, he.2]

/-- C6, amended: at principal 500000, rate 8.5, 20 years calculateEMI computes
monthlyRate = 8.5/1200 and months = 240, and an EMI within 0.01 of
4339.12, a total payment within 1 of 1041388 and a total interest within 1 of
541388 (exact rational arithmetic). -/
theorem calculateEMI_default_figures (page : Page) :
    calculateEMI.monthlyInterestRate (JSNum.fin (17 / 2)) = JSNum.fin (17 / 2 / 1200)
    ∧ calculateEMI.months (JSInt.int 20) = JSInt.int 240
    ∧ ∃ emi totalInterest totalPayment : ℚ,
      (calculateEMI (JSNum.fin 500000) (JSNum.fin (17 / 2)) (JSInt.int 20) page).results
        = some ⟨JSNum.fin emi, JSNum.fin totalInterest, JSNum.fin totalPayment,
            JSInt.int 240⟩
      ∧ |emi - 433912 / 100| ≤ 1 / 100
      ∧ |totalPayment - 1041388| ≤ 1
      ∧ |totalInterest - 541388| ≤ 1 := by
  have hb := specPayment_default_bounds
  refine ⟨?_, rfl, _, _, _, (calculateEMI_default page).1, ?_, ?_, ?_⟩
  · rw [calculateEMI.monthlyInterestRate_fin]
    norm_num
  · rw [abs_le]; constructor <;> linarith [hb.1, hb.2]
  · rw [abs_le]; constructor <;> linarith [hb.1, hb.2]
  · rw [abs_le]; constructor <;> linarith [hb.1, hb.2]

/-- C7 as stated fails: at principal 500000, rate 8.5, 20 years the first row
of the schedule does not have an interest component within 0.01 of 3541.67
together with a principal component within 0.01 of 800.25 and a remaining
balance within 0.01 of 499199.75. -/
theorem first_row_claimed_figures_fail :
    ¬ ∃ interestComponent principalComponent finalBalance : ℚ, ∃ emi : JSNum,
      (calculateEMI (JSNum.fin 500000) (JSNum.fin (17 / 2)) (JSInt.int 20)
          emptyPage).amortizationBody[0]?
        = some ⟨1, emi, JSNum.fin principalComponent, JSNum.fin interestComponent,
            JSNum.fin finalBalance⟩
      ∧ |interestComponent - 354167 / 100| ≤ 1 / 100
      ∧ |principalComponent - 80025 / 100| ≤ 1 / 100
      ∧ |finalBalance - 49919975 / 100| ≤ 1 / 100 := by
  rintro ⟨ic, pc, fb, emi, h, -, hpc, -⟩
  rw [(calculateEMI_default emptyPage).2] at h
  injection h with h
  injection h with h0 h1 h2 h3 h4
  injection h2 with h2
  have hb := specPayment_default_bounds
  rw [abs_le] at hpc
  rw [← h2] at hpc
  linarith [hb.1, hb.2, hpc.1, hpc.2]

/-- C7, amended: at principal 500000, rate 8.5, 20 years the first row of the
schedule (written with the EMI calculateEMI computes) has an interest
component within 0.01 of 3541.67, a principal component within 0.01 of 797.45
and a remaining balance within 0.01 of 499202.55. -/
theorem first_row_figures (page : Page) :
    ∃ interestComponent principalComponent finalBalance : ℚ, ∃ emi : JSNum,
      (calculateEMI (JSNum.fin 500000) (JSNum.fin (17 / 2)) (JSInt.int 20)
          page).amortizationBody[0]?
        = some ⟨1, emi, JSNum.fin principalComponent, JSNum.fin interestComponent,
            JSNum.fin finalBalance⟩
      ∧ |interestComponent - 354167 / 100| ≤ 1 / 100
      ∧ |principalComponent - 79745 / 100| ≤ 1 / 100
      ∧ |finalBalance - 49920255 / 100| ≤ 1 / 100 := by
  have hb := specPayment_default_bounds
  have hpos : (0 : ℚ) ≤ 500000 - (specPayment 500000 (17 / 2 / 12 / 100) 240
      - 500000 * (17 / 2 / 12 / 100)) := by linarith [hb.1, hb.2]
  refine ⟨_, _, _, _, (calculateEMI_default page).2, ?_, ?_, ?_⟩
  · rw [abs_le]; constructor <;> norm_num
  · rw [abs_le]; constructor <;> linarith [hb.1, hb.2]
  · rw [max_eq_right hpos, abs_le]; constructor <;> linarith [hb.1, hb.2]

/-! ## Rejected input -/

/-- When the guard does not fire, calculateEMI shows no alert and writes the
summary, the table and the chart. -/
theorem calculateEMI_runs (principal annualInterestRate : JSNum) (years : JSInt) (page : Page)
    (h : calculateEMI.invalid principal annualInterestRate years = false) :
    (calculateEMI principal annualInterestRate years page).alerts = page.alerts
    ∧ (calculateEMI principal annualInterestRate years page).results.isSome = true
    ∧ (calculateEMI principal annualInterestRate years page).paymentChart.isSome = true := by
  simp [calculateEMI, h, displayResults, generateAmortizationSchedule, createPaymentChart]

/-- The guard fires exactly when a parsed value is NaN or one of the three
comparisons principal <= 0, annualInterestRate < 0, years <= 0 holds. -/
theorem calculateEMI.invalid_iff (principal annualInterestRate : JSNum) (years : JSInt) :
    calculateEMI.invalid principal annualInterestRate years = true ↔
      (principal = JSNum.nan ∨ annualInterestRate = JSNum.nan ∨ years = JSInt.nan
        ∨ JSNum.le principal (JSNum.fin 0) = true
        ∨ JSNum.lt annualInterestRate (JSNum.fin 0) = true
        ∨ JSNum.le years.toNum (JSNum.fin 0) = true) := by
  cases principal <;> cases annualInterestRate <;> cases years <;>
    simp [calculateEMI.invalid, JSNum.isNaN, JSInt.toNum, JSNum.le, JSNum.lt, or_assoc]

/-- C2, the code at the failing input: an infinite principal (with rate 8.5
and 20 years) passes the guard of calculateEMI, no alert is shown, and
displayResults is called with an infinite EMI and a NaN total interest; an
infinite rate (with principal 500000 and 20 years) passes as well and gives a
NaN EMI. -/
theorem calculateEMI_accepts_infinite_input :
    calculateEMI.invalid JSNum.posInf (JSNum.fin (17 / 2)) (JSInt.int 20) = false
    ∧ (calculateEMI JSNum.posInf (JSNum.fin (17 / 2)) (JSInt.int 20) emptyPage).alerts = []
    ∧ (calculateEMI JSNum.posInf (JSNum.fin (17 / 2)) (JSInt.int 20) emptyPage).results
        = some ⟨JSNum.posInf, JSNum.nan, JSNum.posInf, JSInt.int 240⟩
    ∧ calculateEMI.invalid (JSNum.fin 500000) JSNum.posInf (JSInt.int 20) = false
    ∧ (calculateEMI (JSNum.fin 500000) JSNum.posInf (JSInt.int 20) emptyPage).alerts = []
    ∧ (calculateEMI (JSNum.fin 500000) JSNum.posInf (JSInt.int 20) emptyPage).results.map
        Results.emi = some JSNum.nan := by
  have h1 : calculateEMI.invalid JSNum.posInf (JSNum.fin (17 / 2)) (JSInt.int 20) = false := by
    have h0 : (0 : ℚ) ≤ 17 / 2 := by norm_num
    simp [calculateEMI.invalid, JSNum.isNaN, JSNum.le, h0]
  have h2 : calculateEMI.invalid (JSNum.fin 500000) JSNum.posInf (JSInt.int 20) = false := by
    simp [calculateEMI.invalid, JSNum.isNaN, JSNum.lt]
  have hx : (0 : ℚ) < (1 + 17 / 2 / 12 / 100) ^ 240 := by positivity
  have hd : (0 : ℚ) ≤ (1 + 17 / 2 / 12 / 100) ^ 240 - 1 := by
    have := one_lt_growth (17 / 2 / 12 / 100) 240 (by norm_num) (by norm_num)
    linarith
  have e1 : ((20 : ℤ) * 12).toNat = 240 := by decide
  have hemi : calculateEMI.emi JSNum.posInf (JSNum.fin (17 / 2 / 12 / 100))
      (JSInt.int (20 * 12)) = JSNum.posInf := by
    have hr : ((17 : ℚ) / 2 / 12 / 100) ≠ 0 := by norm_num
    have hr0 : (0 : ℚ) < 17 / 2 / 12 / 100 := by norm_num
    rw [calculateEMI.emi, calculateEMI.denominator_fin _ _ (by norm_num),
      calculateEMI.numerator, JSNum.add_fin, Math.pow_fin _ _ (by norm_num), e1]
    simp [JSNum.mul, JSNum.infTimes, JSNum.div, hr, hr0, hx, hx.ne.symm, hd]
  refine ⟨h1, ?_, ?_, h2, ?_, ?_⟩
  · exact (calculateEMI_runs _ _ _ emptyPage h1).1
  · simp only [calculateEMI, h1, calculateEMI.monthlyInterestRate_fin, calculateEMI.months,
      JSInt.mulLit, hemi, displayResults, generateAmortizationSchedule, createPaymentChart,
      calculateEMI.totalPaymentAmount, calculateEMI.totalInterestAmount]
    simp [JSNum.mul, JSNum.infTimes, JSNum.sub, JSNum.neg, JSNum.add, emptyPage]
  · exact (calculateEMI_runs _ _ _ emptyPage h2).1
  · simp [calculateEMI, h2, calculateEMI.monthlyInterestRate, calculateEMI.months,
      JSInt.mulLit, calculateEMI.emi, calculateEMI.numerator, calculateEMI.denominator,
      displayResults, generateAmortizationSchedule, createPaymentChart,
      JSNum.div, JSNum.isZero, JSNum.add, JSNum.mul, JSNum.infTimes, JSNum.sub, JSNum.neg,
      Math.pow]

/-- C8 as stated fails: a negative principal, a negative rate and a
non-positive term all raise one and the same alert, whose text names none of
the three constraints in particular. -/
theorem invalid_input_alerts_coincide :
    (calculateEMI (JSNum.fin (-100)) (JSNum.fin (17 / 2)) (JSInt.int 20) emptyPage).alerts
      = ["Error: Please enter valid positive numbers for all fields"]
    ∧ (calculateEMI (JSNum.fin 500000) (JSNum.fin (-1)) (JSInt.int 20) emptyPage).alerts
      = (calculateEMI (JSNum.fin 500000) (JSNum.fin (17 / 2)) (JSInt.int 0) emptyPage).alerts
    ∧ (calculateEMI (JSNum.fin (-100)) (JSNum.fin (17 / 2)) (JSInt.int 20) emptyPage).alerts
      = (calculateEMI (JSNum.fin 500000) (JSNum.fin (-1)) (JSInt.int 20) emptyPage).alerts := by
  have h : ("Error: " ++ invalidMessage)
      = "Error: Please enter valid positive numbers for all fields" := by decide
  refine ⟨?_, ?_, ?_⟩ <;>
    simp [calculateEMI, calculateEMI.invalid_fin, showError, emptyPage, h]

/-- C8, amended: whenever the guard of calculateEMI fires, whichever
constraint was violated, the page gets the one alert
"Error: Please enter valid positive numbers for all fields" and nothing else
changes: no summary, table or chart is written. -/
theorem calculateEMI_rejects_with_generic_alert (principal annualInterestRate : JSNum)
    (years : JSInt) (page : Page)
    (h : calculateEMI.invalid principal annualInterestRate years = true) :
    calculateEMI principal annualInterestRate years page
      = { page with
          alerts := page.alerts ++
            ["Error: Please enter valid positive numbers for all fields"] } := by
  have hs : ("Error: " ++ invalidMessage)
      = "Error: Please enter valid positive numbers for all fields" := by decide
  simp [calculateEMI, h, showError, hs]

/-- C8, amended, at principal -100 with rate 8.5 and 20 years. -/
theorem calculateEMI_rejects_with_generic_alert_witness :
    calculateEMI.invalid (JSNum.fin (-100)) (JSNum.fin (17 / 2)) (JSInt.int 20) = true
    ∧ calculateEMI (JSNum.fin (-100)) (JSNum.fin (17 / 2)) (JSInt.int 20) emptyPage
      = { emptyPage with
          alerts := emptyPage.alerts ++
            ["Error: Please enter valid positive numbers for all fields"] } :=
  ⟨by simp [calculateEMI.invalid_fin],
    calculateEMI_rejects_with_generic_alert _ _ _ emptyPage
      (by simp [calculateEMI.invalid_fin])⟩

/-! ## The program in doubles -/

/-- With nothing rounded the rounded row is the row. -/
theorem generateAmortizationSchedule.rowRounded_id (monthlyRate emi : JSNum) (month : ℕ)
    (balance : JSNum) :
    generateAmortizationSchedule.rowRounded id monthlyRate emi month balance
      = generateAmortizationSchedule.row monthlyRate emi month balance := rfl

/-- With nothing rounded the rounded loop is the loop. -/
theorem generateAmortizationSchedule.loopRounded_id (monthlyRate months emi : JSNum) :
    ∀ (fuel month : ℕ) (balance : JSNum),
      generateAmortizationSchedule.loopRounded id monthlyRate months emi fuel month balance
        = generateAmortizationSchedule.loop monthlyRate months emi fuel month balance := by
  intro fuel
  induction fuel with
  | zero => intro month balance; rfl
  | succ f ih =>
    intro month balance
    rw [generateAmortizationSchedule.loopRounded, generateAmortizationSchedule.loop_succ, ih]
    rfl

/-- With nothing rounded the rounded schedule is the schedule. -/
theorem scheduleRowsRounded_id (principal monthlyRate months emi : JSNum) :
    scheduleRowsRounded id principal monthlyRate months emi
      = scheduleRows principal monthlyRate months emi :=
  generateAmortizationSchedule.loopRounded_id monthlyRate months emi 12 1 principal

/-- The first row of the rounded schedule is the rounded row at month 1 and
the principal, as soon as months is a finite number at least 1. -/
theorem scheduleRowsRounded_first (fl : JSNum → JSNum) (principal monthlyRate emi : JSNum)
    (n : ℕ) (hn : 1 ≤ n) :
    (scheduleRowsRounded fl principal monthlyRate (JSNum.fin (n : ℚ)) emi)[0]?
      = some (generateAmortizationSchedule.rowRounded fl monthlyRate emi 1 principal) := by
  have hc : JSNum.le (JSNum.fin ((1 : ℕ) : ℚ)) (Math.min (JSNum.fin 12) (JSNum.fin (n : ℚ)))
      = true := by
    rw [loop_condition]
    exact decide_eq_true (by omega)
  rw [scheduleRowsRounded, generateAmortizationSchedule.loopRounded, if_pos hc]
  simp

/-- With nothing rounded the rounded formula is the formula. -/
theorem calculateEMI.emiRounded_id (principal annualInterestRate : JSNum) (months : JSInt) :
    calculateEMI.monthlyInterestRateRounded id annualInterestRate
      = calculateEMI.monthlyInterestRate annualInterestRate
    ∧ calculateEMI.numeratorRounded id principal annualInterestRate months
      = calculateEMI.numerator principal annualInterestRate months
    ∧ calculateEMI.denominatorRounded id annualInterestRate months
      = calculateEMI.denominator annualInterestRate months
    ∧ calculateEMI.emiRounded id principal annualInterestRate months
      = calculateEMI.emi principal annualInterestRate months :=
  ⟨rfl, rfl, rfl, rfl⟩

theorem binary64.roundHalfEven_of_near (q : ℚ) (m : ℤ) (h1 : (m : ℚ) - 1 / 2 < q)
    (h2 : q < (m : ℚ) + 1 / 2) : binary64.roundHalfEven q = m := by
  by_cases hq : (m : ℚ) ≤ q
  · have hf : ⌊q⌋ = m := Int.floor_eq_iff.mpr ⟨hq, by linarith⟩
    have hlt : q - (m : ℚ) < 1 / 2 := by linarith
    simp only [binary64.roundHalfEven, hf, if_pos hlt]
  · have hq1 : q < (m : ℚ) := lt_of_not_le hq
    have hf : ⌊q⌋ = m - 1 :=
      Int.floor_eq_iff.mpr ⟨by push_cast; linarith, by push_cast; linarith⟩
    have h3 : ¬ (q - ((m - 1 : ℤ) : ℚ) < 1 / 2) := by push_cast; linarith
    have h4 : 1 / 2 < q - ((m - 1 : ℤ) : ℚ) := by push_cast; linarith
    simp only [binary64.roundHalfEven, hf, if_neg h3, if_pos h4]
    ring

theorem binary64.ulpExponent_of_pos (q : ℚ) (k : ℤ) (hlo : (2 : ℚ) ^ k ≤ q)
    (hhi : q < (2 : ℚ) ^ (k + 1)) (hk : -1022 ≤ k) : binary64.ulpExponent q = k - 52 := by
  have hq : 0 < q := lt_of_lt_of_le (by positivity) hlo
  have h2 : ((2 : ℕ) : ℚ) = 2 := by norm_num
  have hlog : Int.log 2 q = k := by
    apply le_antisymm
    · have := (Int.lt_zpow_iff_log_lt (by norm_num : 1 < 2) hq).mp (by rw [h2]; exact hhi)
      omega
    · exact (Int.zpow_le_iff_le_log (by norm_num : 1 < 2) hq).mp (by rw [h2]; exact hlo)
  rw [binary64.ulpExponent, abs_of_pos hq, hlog]
  exact max_eq_left (by omega)

theorem binary64.roundHalfEven_of_tie_even (q : ℚ) (m : ℤ) (h : q = (m : ℚ) + 1 / 2)
    (he : m % 2 = 0) : binary64.roundHalfEven q = m := by
  have hf : ⌊q⌋ = m := Int.floor_eq_iff.mpr ⟨by linarith, by linarith⟩
  have h3 : ¬ (q - (m : ℚ) < 1 / 2) := by linarith
  have h4 : ¬ (1 / 2 < q - (m : ℚ)) := by linarith
  simp only [binary64.roundHalfEven, hf, if_neg h3, if_neg h4, if_pos he]

/-- The double of a positive q lying in the binade of 2^k, when m is the
rounding (nearest, ties to even) of q / 2^(k - 52). -/
theorem binary64.round_of_pos (q : ℚ) (k m : ℤ) (hlo : (2 : ℚ) ^ k ≤ q)
    (hhi : q < (2 : ℚ) ^ (k + 1)) (hk : -1022 ≤ k)
    (hr : binary64.roundHalfEven (q / (2 : ℚ) ^ (k - 52)) = m)
    (hm : 0 ≤ m) (hov : (m : ℚ) * (2 : ℚ) ^ (k - 52) < (2 : ℚ) ^ 1024) :
    binary64.round q = JSNum.fin ((m : ℚ) * (2 : ℚ) ^ (k - 52)) := by
  have hq : 0 < q := lt_of_lt_of_le (by positivity) hlo
  have hm0 : (0 : ℚ) ≤ (m : ℚ) := by exact_mod_cast hm
  have hnn : (0 : ℚ) ≤ (m : ℚ) * (2 : ℚ) ^ (k - 52) :=
    mul_nonneg hm0 (zpow_nonneg (by norm_num) _)
  rw [binary64.round, if_neg hq.ne.symm, binary64.ulpExponent_of_pos q k hlo hhi hk,
    hr, abs_of_nonneg hnn, if_neg (not_le.mpr hov)]

/-- In doubles the components of a row need not add up to the payment.  With
balance 100, monthly rate 0.002 and payment 0.9 (as doubles), the loop body
computes the interest 0.2 and the principal component 0.7, and their sum in
doubles is 0.8999999999999999, one unit in the last place below the payment. -/
theorem binary64_row_sum_differs :
    binary64.round (1 / 500) = JSNum.fin (4611686018427388 / 2 ^ 61)
    ∧ binary64.round (9 / 10) = JSNum.fin (8106479329266893 / 2 ^ 53)
    ∧ generateAmortizationSchedule.rowRounded JSNum.toBinary64
        (JSNum.fin (4611686018427388 / 2 ^ 61)) (JSNum.fin (8106479329266893 / 2 ^ 53)) 1 (JSNum.fin 100)
      = ⟨1, JSNum.fin (8106479329266893 / 2 ^ 53), JSNum.fin (6305039478318694 / 2 ^ 53),
          JSNum.fin (7205759403792794 / 2 ^ 55), JSNum.fin (6987616296842035 / 2 ^ 46)⟩
    ∧ JSNum.toBinary64 (JSNum.add (JSNum.fin (7205759403792794 / 2 ^ 55))
        (JSNum.fin (6305039478318694 / 2 ^ 53))) = JSNum.fin (8106479329266892 / 2 ^ 53)
    ∧ JSNum.fin (8106479329266892 / 2 ^ 53) ≠ JSNum.fin (8106479329266893 / 2 ^ 53) := by
  have hr : binary64.round (1 / 500) = JSNum.fin (4611686018427388 / 2 ^ 61) := by
    rw [binary64.round_of_pos (1 / 500) (-9) 4611686018427388 (by norm_num) (by norm_num)
      (by norm_num)
      (binary64.roundHalfEven_of_near _ _ (by norm_num) (by norm_num))
      (by norm_num) (by norm_num)]
    norm_num
  have he : binary64.round (9 / 10) = JSNum.fin (8106479329266893 / 2 ^ 53) := by
    rw [binary64.round_of_pos (9 / 10) (-1) 8106479329266893 (by norm_num) (by norm_num)
      (by norm_num)
      (binary64.roundHalfEven_of_near _ _ (by norm_num) (by norm_num))
      (by norm_num) (by norm_num)]
    norm_num
  have hi : binary64.round (100 * (4611686018427388 / 2 ^ 61)) = JSNum.fin (7205759403792794 / 2 ^ 55) := by
    rw [binary64.round_of_pos (100 * (4611686018427388 / 2 ^ 61)) (-3) 7205759403792794 (by norm_num) (by norm_num)
      (by norm_num)
      (binary64.roundHalfEven_of_near _ _ (by norm_num) (by norm_num))
      (by norm_num) (by norm_num)]
    norm_num
  have hp : binary64.round ((8106479329266893 / 2 ^ 53) - (7205759403792794 / 2 ^ 55))
      = JSNum.fin (6305039478318694 / 2 ^ 53) := by
    rw [binary64.round_of_pos ((8106479329266893 / 2 ^ 53) - (7205759403792794 / 2 ^ 55)) (-1) 6305039478318694 (by norm_num) (by norm_num)
      (by norm_num)
      (binary64.roundHalfEven_of_tie_even _ _ (by norm_num) (by decide))
      (by norm_num) (by norm_num)]
    norm_num
  have hb : binary64.round (100 - (6305039478318694 / 2 ^ 53)) = JSNum.fin (6987616296842035 / 2 ^ 46) := by
    rw [binary64.round_of_pos (100 - (6305039478318694 / 2 ^ 53)) (6) 6987616296842035 (by norm_num) (by norm_num)
      (by norm_num)
      (binary64.roundHalfEven_of_near _ _ (by norm_num) (by norm_num))
      (by norm_num) (by norm_num)]
    norm_num
  have hs : binary64.round ((7205759403792794 / 2 ^ 55) + (6305039478318694 / 2 ^ 53))
      = JSNum.fin (8106479329266892 / 2 ^ 53) := by
    rw [binary64.round_of_pos ((7205759403792794 / 2 ^ 55) + (6305039478318694 / 2 ^ 53)) (-1) 8106479329266892 (by norm_num) (by norm_num)
      (by norm_num)
      (binary64.roundHalfEven_of_tie_even _ _ (by norm_num) (by decide))
      (by norm_num) (by norm_num)]
    norm_num
  have hpos : (0 : ℚ) ≤ (6987616296842035 / 2 ^ 46) := by norm_num
  refine ⟨hr, he, ?_, ?_, ?_⟩
  · simp only [generateAmortizationSchedule.rowRounded, JSNum.mul_fin, JSNum.sub_fin,
      JSNum.toBinary64, hi, hp, hb, Math.max_fin, max_eq_right hpos]
  · simp only [JSNum.add_fin, JSNum.toBinary64, hs]
  · intro h
    injection h with h
    norm_num at h

theorem binary64.round_one : binary64.round 1 = JSNum.fin 1 := by
  rw [binary64.round_of_pos (1) (0) 4503599627370496 (by norm_num) (by norm_num)
      (by norm_num)
      (binary64.roundHalfEven_of_near _ _ (by norm_num) (by norm_num))
      (by norm_num) (by norm_num)]
  norm_num

theorem binary64.round_zero : binary64.round 0 = JSNum.fin 0 := by
  simp [binary64.round]

theorem tinyRate_parsed : binary64.round (1 / 10 ^ 13) = JSNum.fin (7922816251426434 / 2 ^ 96) := by
  rw [binary64.round_of_pos (1 / 10 ^ 13) (-44) 7922816251426434 (by norm_num) (by norm_num)
      (by norm_num)
      (binary64.roundHalfEven_of_near _ _ (by norm_num) (by norm_num))
      (by norm_num) (by norm_num)]
  norm_num

theorem tinyRate_monthly :
    calculateEMI.monthlyInterestRateRounded JSNum.toBinary64 (JSNum.fin (7922816251426434 / 2 ^ 96))
      = JSNum.fin (6760803201217224 / 2 ^ 106) := by
  have hX : binary64.round ((7922816251426434 / 2 ^ 96) / 12) = JSNum.fin (5281877500950956 / 2 ^ 99) := by
    rw [binary64.round_of_pos ((7922816251426434 / 2 ^ 96) / 12) (-47) 5281877500950956 (by norm_num) (by norm_num)
      (by norm_num)
      (binary64.roundHalfEven_of_near _ _ (by norm_num) (by norm_num))
      (by norm_num) (by norm_num)]
    norm_num
  have hM : binary64.round ((5281877500950956 / 2 ^ 99) / 100) = JSNum.fin (6760803201217224 / 2 ^ 106) := by
    rw [binary64.round_of_pos ((5281877500950956 / 2 ^ 99) / 100) (-54) 6760803201217224 (by norm_num) (by norm_num)
      (by norm_num)
      (binary64.roundHalfEven_of_near _ _ (by norm_num) (by norm_num))
      (by norm_num) (by norm_num)]
    norm_num
  rw [calculateEMI.monthlyInterestRateRounded, JSNum.div_fin _ (12 : ℚ) (by norm_num)]
  show JSNum.toBinary64 (JSNum.div (binary64.round ((7922816251426434 / 2 ^ 96) / 12)) (JSNum.fin 100)) = _
  rw [hX, JSNum.div_fin _ (100 : ℚ) (by norm_num)]
  exact hM

theorem tinyRate_one_plus :
    JSNum.toBinary64 (JSNum.add (JSNum.fin 1) (JSNum.fin (6760803201217224 / 2 ^ 106))) = JSNum.fin 1 := by
  show binary64.round (1 + (6760803201217224 / 2 ^ 106)) = JSNum.fin 1
  rw [binary64.round_of_pos (1 + (6760803201217224 / 2 ^ 106)) (0) 4503599627370496 (by norm_num) (by norm_num)
      (by norm_num)
      (binary64.roundHalfEven_of_near _ _ (by norm_num) (by norm_num))
      (by norm_num) (by norm_num)]
  norm_num

theorem tinyRate_power :
    JSNum.toBinary64 (Math.pow (JSNum.fin 1) (calculateEMI.months (JSInt.int 20)))
      = JSNum.fin 1 := by
  have hmonths : calculateEMI.months (JSInt.int 20) = JSInt.int 240 := rfl
  rw [hmonths, Math.pow_fin 1 240 (by norm_num), one_pow]
  exact binary64.round_one

theorem tinyRate_denominator :
    calculateEMI.denominatorRounded JSNum.toBinary64 (JSNum.fin (6760803201217224 / 2 ^ 106))
      (calculateEMI.months (JSInt.int 20)) = JSNum.fin 0 := by
  rw [calculateEMI.denominatorRounded, tinyRate_one_plus, tinyRate_power, JSNum.sub_fin,
    sub_self]
  exact binary64.round_zero

theorem tinyRate_numerator :
    calculateEMI.numeratorRounded JSNum.toBinary64 (JSNum.fin 500000) (JSNum.fin (6760803201217224 / 2 ^ 106))
      (calculateEMI.months (JSInt.int 20)) = JSNum.fin (6447604371278023 / 2 ^ 87) := by
  have hN : binary64.round (500000 * (6760803201217224 / 2 ^ 106)) = JSNum.fin (6447604371278023 / 2 ^ 87) := by
    rw [binary64.round_of_pos (500000 * (6760803201217224 / 2 ^ 106)) (-35) 6447604371278023 (by norm_num) (by norm_num)
      (by norm_num)
      (binary64.roundHalfEven_of_near _ _ (by norm_num) (by norm_num))
      (by norm_num) (by norm_num)]
    norm_num
  have hN1 : binary64.round ((6447604371278023 / 2 ^ 87) * 1) = JSNum.fin (6447604371278023 / 2 ^ 87) := by
    rw [binary64.round_of_pos ((6447604371278023 / 2 ^ 87) * 1) (-35) 6447604371278023 (by norm_num) (by norm_num)
      (by norm_num)
      (binary64.roundHalfEven_of_near _ _ (by norm_num) (by norm_num))
      (by norm_num) (by norm_num)]
    norm_num
  rw [calculateEMI.numeratorRounded, tinyRate_one_plus, tinyRate_power, JSNum.mul_fin]
  show JSNum.toBinary64 (JSNum.mul (binary64.round (500000 * (6760803201217224 / 2 ^ 106))) (JSNum.fin 1)) = _
  rw [hN, JSNum.mul_fin]
  exact hN1

/-- In doubles the non-zero-rate branch can divide by zero.  The rate 1e-13
(as a double) is accepted with principal 500000 and 20 years; the monthly rate
computed from it is about 8.3e-17 and not zero, 1 + monthlyRate rounds to
exactly 1, so the divisor (1 + monthlyRate)^months - 1 is 0 and the EMI is
Infinity. -/
theorem binary64_tiny_rate_divides_by_zero :
    binary64.round (1 / 10 ^ 13) = JSNum.fin (7922816251426434 / 2 ^ 96)
    ∧ calculateEMI.invalid (JSNum.fin 500000) (JSNum.fin (7922816251426434 / 2 ^ 96))
        (JSInt.int 20) = false
    ∧ calculateEMI.monthlyInterestRateRounded JSNum.toBinary64
        (JSNum.fin (7922816251426434 / 2 ^ 96)) = JSNum.fin (6760803201217224 / 2 ^ 106)
    ∧ (JSNum.fin (6760803201217224 / 2 ^ 106)).isZero = false
    ∧ JSNum.toBinary64 (JSNum.add (JSNum.fin 1) (JSNum.fin (6760803201217224 / 2 ^ 106)))
      = JSNum.fin 1
    ∧ calculateEMI.denominatorRounded JSNum.toBinary64 (JSNum.fin (6760803201217224 / 2 ^ 106))
        (calculateEMI.months (JSInt.int 20)) = JSNum.fin 0
    ∧ calculateEMI.emiRounded JSNum.toBinary64 (JSNum.fin 500000)
        (JSNum.fin (6760803201217224 / 2 ^ 106)) (calculateEMI.months (JSInt.int 20))
      = JSNum.posInf := by
  have hpos : (0 : ℚ) < (6447604371278023 / 2 ^ 87) := by norm_num
  have hmr : ((6760803201217224 / 2 ^ 106) : ℚ) ≠ 0 := by norm_num
  have hnz : (JSNum.fin (6760803201217224 / 2 ^ 106)).isZero = false := by
    rw [JSNum.isZero_fin]
    exact decide_eq_false hmr
  refine ⟨tinyRate_parsed, ?_, tinyRate_monthly, hnz, tinyRate_one_plus,
    tinyRate_denominator, ?_⟩
  · exact calculateEMI.not_invalid _ _ _ (by norm_num) (by norm_num) (by norm_num)
  · rw [calculateEMI.emiRounded, hnz, tinyRate_numerator, tinyRate_denominator]
    simp [JSNum.div, JSNum.toBinary64, hpos, hpos.ne.symm]

/-- C4 as stated fails, in two ways.  At an infinite principal (monthly rate
1/100, 12 months, payment 100) the components of a row are Infinity and minus
Infinity and their sum is NaN, not the payment.  And in doubles, with
principal 100, monthly rate 0.002, 12 months and payment 0.9, the sum of the
two components of the first row, computed as the program computes it, is not
the payment. -/
theorem generateAmortizationSchedule_sum_fails :
    (¬ ∀ row ∈ (generateAmortizationSchedule JSNum.posInf (JSNum.fin (1 / 100))
        (JSNum.fin ((12 : ℕ) : ℚ)) (JSNum.fin 100) emptyPage).amortizationBody,
        JSNum.add row.interestComponent row.principalComponent = JSNum.fin 100)
    ∧ ∃ row : Row,
        (scheduleRowsRounded JSNum.toBinary64 (JSNum.fin 100)
          (JSNum.toBinary64 (JSNum.fin (1 / 500))) (JSNum.fin ((12 : ℕ) : ℚ))
          (JSNum.toBinary64 (JSNum.fin (9 / 10))))[0]? = some row
        ∧ JSNum.toBinary64 (JSNum.add row.interestComponent row.principalComponent)
          ≠ row.emi := by
  refine ⟨infinite_principal_row_sum_is_nan.2.2,
    generateAmortizationSchedule.rowRounded JSNum.toBinary64
      (JSNum.toBinary64 (JSNum.fin (1 / 500))) (JSNum.toBinary64 (JSNum.fin (9 / 10))) 1
      (JSNum.fin 100), ?_, ?_⟩
  · exact scheduleRowsRounded_first _ _ _ _ 12 (by norm_num)
  · have h := binary64_row_sum_differs
    have e1 : JSNum.toBinary64 (JSNum.fin (1 / 500)) = binary64.round (1 / 500) := rfl
    have e2 : JSNum.toBinary64 (JSNum.fin (9 / 10)) = binary64.round (9 / 10) := rfl
    rw [e1, e2, h.1, h.2.1, h.2.2.1]
    show JSNum.toBinary64 (JSNum.add (JSNum.fin (7205759403792794 / 2 ^ 55))
      (JSNum.fin (6305039478318694 / 2 ^ 53))) ≠ JSNum.fin (8106479329266893 / 2 ^ 53)
    rw [h.2.2.2.1]
    exact h.2.2.2.2

/-- C9 as stated fails, in two ways.  An infinite rate is accepted by the
validation and gives a NaN EMI.  And in doubles the finite rate 1e-13 (with
principal 500000 and 20 years) is accepted, gives a monthly rate that is not
zero, and in the non-zero-rate branch the divisor
(1 + monthlyRate)^months - 1 is 0, so the EMI is Infinity. -/
theorem calculateEMI_division_fails :
    (calculateEMI.invalid (JSNum.fin 500000) JSNum.posInf (JSInt.int 20) = false
      ∧ calculateEMI.emi (JSNum.fin 500000) (calculateEMI.monthlyInterestRate JSNum.posInf)
          (calculateEMI.months (JSInt.int 20)) = JSNum.nan)
    ∧ calculateEMI.invalid (JSNum.fin 500000) (JSNum.toBinary64 (JSNum.fin (1 / 10 ^ 13)))
        (JSInt.int 20) = false
    ∧ (calculateEMI.monthlyInterestRateRounded JSNum.toBinary64
        (JSNum.toBinary64 (JSNum.fin (1 / 10 ^ 13)))).isZero = false
    ∧ calculateEMI.denominatorRounded JSNum.toBinary64
        (calculateEMI.monthlyInterestRateRounded JSNum.toBinary64
          (JSNum.toBinary64 (JSNum.fin (1 / 10 ^ 13))))
        (calculateEMI.months (JSInt.int 20)) = JSNum.fin 0
    ∧ calculateEMI.emiRounded JSNum.toBinary64 (JSNum.fin 500000)
        (calculateEMI.monthlyInterestRateRounded JSNum.toBinary64
          (JSNum.toBinary64 (JSNum.fin (1 / 10 ^ 13))))
        (calculateEMI.months (JSInt.int 20)) = JSNum.posInf := by
  have h := binary64_tiny_rate_divides_by_zero
  have e1 : JSNum.toBinary64 (JSNum.fin (1 / 10 ^ 13)) = binary64.round (1 / 10 ^ 13) := rfl
  rw [e1, h.1, h.2.2.1]
  exact ⟨⟨accepted_infinite_rate_emi_is_nan.1, accepted_infinite_rate_emi_is_nan.2.2.2.2⟩,
    h.2.1, h.2.2.2.1, h.2.2.2.2.2.1, h.2.2.2.2.2.2⟩

/-- An infinite tenure (parseInt of a digit string too long for a double) is
accepted as well: at principal 100000 and rate 0 the EMI is 0, both totals
are NaN and the tenure shown is Infinity months. -/
theorem calculateEMI_accepts_infinite_years :
    calculateEMI.invalid (JSNum.fin 100000) (JSNum.fin 0) JSInt.posInf = false
    ∧ (calculateEMI (JSNum.fin 100000) (JSNum.fin 0) JSInt.posInf emptyPage).alerts = []
    ∧ (calculateEMI (JSNum.fin 100000) (JSNum.fin 0) JSInt.posInf emptyPage).results
        = some ⟨JSNum.fin 0, JSNum.nan, JSNum.nan, JSInt.posInf⟩ := by
  have h1 : calculateEMI.invalid (JSNum.fin 100000) (JSNum.fin 0) JSInt.posInf = false := by
    simp [calculateEMI.invalid, JSNum.isNaN, JSInt.toNum, JSNum.le]
  refine ⟨h1, (calculateEMI_runs _ _ _ emptyPage h1).1, ?_⟩
  simp [calculateEMI, h1, calculateEMI.monthlyInterestRate, calculateEMI.months,
    JSInt.mulLit, calculateEMI.emi, calculateEMI.totalPaymentAmount,
    calculateEMI.totalInterestAmount, displayResults, generateAmortizationSchedule,
    createPaymentChart, JSNum.div, JSNum.isZero, JSInt.toNum, JSNum.mul, JSNum.infTimes,
    JSNum.sub, JSNum.neg, JSNum.add]

/-- Only the elements emiValue and loanTenure receive text from
displayResults: the elements totalInterest and totalPayment keep what they
showed, as do the table, the chart and the alerts. -/
theorem displayResults_writes (emi totalInterest totalPayment : JSNum) (months : JSInt)
    (page : Page) :
    (displayResults emi totalInterest totalPayment months page).emiValue = some emi
    ∧ (displayResults emi totalInterest totalPayment months page).loanTenure = some months
    ∧ (displayResults emi totalInterest totalPayment months page).totalInterest
        = page.totalInterest
    ∧ (displayResults emi totalInterest totalPayment months page).totalPayment
        = page.totalPayment :=
  ⟨rfl, rfl, rfl, rfl⟩

end LoanCalculator
